import Mathlib

/-!
Verification development for the Pittsfield Township property-tax webapp.

The Python sources under `webapp/` are shallowly embedded here:
pandas DataFrames become lists of row structures (a Boolean per optional
column records whether the column is present in a given yearly table),
Python floats become exact rationals, `None`/`NaN` become `Option`,
and dicts keyed by year become association lists in insertion order.
-/

namespace Pittsfield

/-! ## Basic helpers (Python semantics) -/

/-- The whitespace characters Python `str.strip` and `\s` recognise. -/
def pyIsSpace (c : Char) : Bool :=
  c = ' ' || c = '\t' || c = '\n' || c = '\r' || c = (Char.ofNat 11) || c = (Char.ofNat 12)

/-- Python `str.strip()`: remove leading and trailing whitespace. -/
def pyStrip (s : String) : String :=
  ⟨((s.data.dropWhile pyIsSpace).reverse.dropWhile pyIsSpace).reverse⟩

/-- Python str.lstrip of the apostrophe character: remove leading apostrophes. -/
def lstripApos (s : String) : String :=
  ⟨s.data.dropWhile (fun c => c = Char.ofNat 39)⟩

/-- Whether `pat` occurs as a prefix of `l`. -/
def listIsPfx (pat l : List Char) : Bool :=
  match pat, l with
  | [], _ => true
  | _ :: _, [] => false
  | p :: ps, c :: cs => p = c && listIsPfx ps cs

/-- Whether `pat` occurs as a contiguous sublist of `l`. -/
def listIsSub (pat l : List Char) : Bool :=
  match l with
  | [] => listIsPfx pat []
  | _ :: cs => listIsPfx pat l || listIsSub pat cs

/-- Python `str.lower()` (character-wise). -/
def lowerStr (s : String) : String :=
  ⟨s.data.map Char.toLower⟩

/-- Python `str.upper()` (character-wise). -/
def upperStr (s : String) : String :=
  ⟨s.data.map Char.toUpper⟩

/-- Case-insensitive substring test, as in `Series.str.contains(pat, case=False)`:
both sides are lowercased and a plain substring search is performed. -/
def containsCI (hay pat : String) : Bool :=
  listIsSub (lowerStr pat).data (lowerStr hay).data

/-- Plain (case-sensitive) substring test on strings. -/
def strContains (hay pat : String) : Bool :=
  listIsSub pat.data hay.data

/-- Python truthiness of an optional float: `None` and `0.0` are falsy. -/
def truthy (o : Option ℚ) : Bool :=
  match o with
  | none => false
  | some v => v ≠ 0

/-- Python `round` on a real value: round half to even (bankers rounding),
returning an integer. -/
def pyRound (q : ℚ) : ℤ :=
  if q - (⌊q⌋ : ℚ) < 1/2 then ⌊q⌋
  else if 1/2 < q - (⌊q⌋ : ℚ) then ⌊q⌋ + 1
  else if ⌊q⌋ % 2 = 0 then ⌊q⌋ else ⌊q⌋ + 1

/-- Python `int()` applied to a nonnegative real: truncation toward zero. -/
def pyTrunc (q : ℚ) : ℤ :=
  if 0 ≤ q then ⌊q⌋ else -⌊-q⌋

/-- Insertion of a rational into an ascending sorted list. -/
def insertAsc (x : ℚ) : List ℚ → List ℚ
  | [] => [x]
  | y :: ys => if x ≤ y then x :: y :: ys else y :: insertAsc x ys

/-- Ascending insertion sort on rationals. -/
def sortAsc (l : List ℚ) : List ℚ :=
  l.foldr insertAsc []

/-- Insertion of a natural number into an ascending sorted list. -/
def insertAscNat (x : Nat) : List Nat → List Nat
  | [] => [x]
  | y :: ys => if x ≤ y then x :: y :: ys else y :: insertAscNat x ys

/-- Ascending insertion sort on natural numbers (used for sorted dict keys). -/
def sortAscNat (l : List Nat) : List Nat :=
  l.foldr insertAscNat []

/-- `pandas.Series.median`: middle element of the sorted values for an odd
count, mean of the two middle elements for an even count, over a nonempty
list (the empty case, which pandas maps to NaN, is modelled as 0 and is
never reached by the guarded call sites). -/
def pyMedian (l : List ℚ) : ℚ :=
  let s := sortAsc l
  let n := s.length
  if n = 0 then 0
  else if n % 2 = 1 then s.getD (n / 2) 0
  else (s.getD (n / 2 - 1) 0 + s.getD (n / 2) 0) / 2

/-- `pandas.Series.mean` over a nonempty list (empty modelled as 0,
unreachable through the guarded call sites). -/
def pyMean (l : List ℚ) : ℚ :=
  if l.length = 0 then 0 else l.sum / (l.length : ℚ)

/-- Minimum of a nonempty list, Python `Series.min` (empty modelled as 0). -/
def pyMinimum (l : List ℚ) : ℚ :=
  match l with
  | [] => 0
  | x :: xs => xs.foldl min x

/-- Maximum of a nonempty list, Python `max` / `Series.max`
(empty modelled as 0; Python would raise there). -/
def pyMaximum (l : List ℚ) : ℚ :=
  match l with
  | [] => 0
  | x :: xs => xs.foldl max x

/-- Duplicate removal on rationals (order of the survivors is irrelevant:
`pdMode` sorts them afterwards). -/
def dedupQ : List ℚ → List ℚ
  | [] => []
  | x :: xs => if x ∈ xs then dedupQ xs else x :: dedupQ xs

/-- `pandas.Series.mode`: the values of maximal multiplicity, in ascending
order (pandas returns modes sorted ascending; `.iloc[0]` is therefore the
least modal value). -/
def pdMode (l : List ℚ) : List ℚ :=
  (sortAsc (dedupQ l)).filter
    (fun v => l.count v = (l.map (fun w => l.count w)).foldr max 0)

/-! ## Sales data model (`data_loader._load_sales` output shape)

A sales row as produced by the loader.  `Sale_Date` is modelled as the pair
of the raw display string and the calendar date it denotes: the source
normalises dates with `pd.to_datetime(..., format="mixed")`, a
format-agnostic parse, which we model by making the denoted calendar date
part of the value. -/

structure Date where
  y : Nat
  m : Nat
  d : Nat
  deriving DecidableEq

/-- A date cell: raw text plus the calendar date the text denotes. -/
structure DateStr where
  txt : String
  date : Date
  deriving DecidableEq

/-- Zero-padded rendering of a natural number to a given width. -/
def padNum (w n : Nat) : String :=
  let s := toString n
  ⟨List.replicate (w - s.length) '0'⟩ ++ s

/-- The `%Y-%m-%d` rendering used to build `_norm_date`. -/
def isoDate (d : Date) : String :=
  padNum 4 d.y ++ "-" ++ padNum 2 d.m ++ "-" ++ padNum 2 d.d

/-- One row of a yearly `Residential_Sales_Analysis` table, after loading.
`_year` is the `_year` column added by `_load_sales`. -/
structure SalesRow where
  Parcel_Number : String
  Street_Address : String
  Sale_Date : DateStr
  Sale_Price : Option ℚ
  Adj_Sale : Option ℚ
  Terms_of_Sale : Option String
  ECF_Area : String
  yearCol : Nat
  deriving DecidableEq

/-- A yearly sales table.  `hasECFArea` / `hasTerms` record whether the
`ECF_Area` / `Terms_of_Sale` columns are present at all (the 2025 file is
missing some columns); when a column is absent the per-row field values are
meaningless and the source code never reads them. -/
structure SalesTable where
  hasECFArea : Bool
  hasTerms : Bool
  rows : List SalesRow
  deriving DecidableEq

/-- A row of the comparable-sales output frame: `get_comparable_sales`
keeps exactly the columns `Parcel_Number`, `Street_Address`, `Sale_Date`,
`Sale_Price`, `Adj_Sale`, `_year`. -/
structure OutRow where
  Parcel_Number : String
  Street_Address : String
  Sale_Date : DateStr
  Sale_Price : Option ℚ
  Adj_Sale : Option ℚ
  yearCol : Nat
  deriving DecidableEq

/-- Column selection of `get_comparable_sales` (source line 79). -/
def projRow (r : SalesRow) : OutRow :=
  { Parcel_Number := r.Parcel_Number
    Street_Address := r.Street_Address
    Sale_Date := r.Sale_Date
    Sale_Price := r.Sale_Price
    Adj_Sale := r.Adj_Sale
    yearCol := r.yearCol }

/-! ## ECF, land and adjustment tables -/

/-- A row of a yearly ECF-summary table after `_load_ecf_summaries`
(area stripped, `Ave_ECF` numeric-parsed, one row per area). -/
structure EcfSummaryRow where
  ECF_Area : String
  Subdivision : String
  Ave_ECF : Option ℚ
  deriving DecidableEq

/-- A row of a yearly per-property ECF-analysis table after
`_load_ecf_analysis`. -/
structure EcfAnalysisRow where
  ECF_Area_Code : String
  ECF_Area : String
  Street_Address : String
  Parcel_Number : String
  Sale_Price : Option ℚ
  Cost_Man : Option ℚ
  ECF : Option ℚ
  deriving DecidableEq

/-- A yearly ECF-analysis table; the area-code column name differs across
years, so presence of each candidate column is tracked. -/
structure EcfAnalysisTable where
  hasECFAreaCode : Bool
  hasECFArea : Bool
  rows : List EcfAnalysisRow
  deriving DecidableEq

/-- Output row shape of `get_ecf_properties`. -/
structure EcfPropRow where
  year : Nat
  address : String
  parcel : String
  sale_price : Option ℚ
  cost_man : Option ℚ
  ecf : Option ℚ
  deriving DecidableEq

/-- A row of a yearly land-analysis table after `_load_land_analysis`
(year-specific land-value columns already renamed to Prior/Current). -/
structure LandRow where
  Area_Code : String
  ECF_Area : String
  Land_Value_Prior : Option ℚ
  Land_Value_Current : Option ℚ
  deriving DecidableEq

/-- A yearly land-analysis table with its optional columns. -/
structure LandTable where
  hasAreaCode : Bool
  hasECFArea : Bool
  hasPrior : Bool
  hasCurrent : Bool
  rows : List LandRow
  deriving DecidableEq

/-- A row of a yearly land-adjustments table after `_load_land_adjustments`. -/
structure LandAdjRow where
  Area_Code : String
  Subdivision : String
  Adjust_Factor : Option ℚ
  deriving DecidableEq

/-- The loaded data bundle (`load_all_data` output): each entry is a
year-keyed dict, modelled as an association list in insertion order. -/
structure Data where
  sales : List (Nat × SalesTable)
  ecf_summaries : List (Nat × List EcfSummaryRow)
  ecf_analysis : List (Nat × EcfAnalysisTable)
  land : List (Nat × LandTable)
  land_adj : List (Nat × List LandAdjRow)
  deriving DecidableEq

/-- Lookup in a year-keyed dict (`year in d` / `d[year]`). -/
def dictLookup {α : Type} (d : List (Nat × α)) (y : Nat) : Option α :=
  (d.find? (fun p => p.1 = y)).map (fun p => p.2)

/-! ## `analysis_engine.get_ecf_trend` -/

/-- `get_ecf_trend`: for each yearly ECF summary table, the first row whose
`ECF_Area` equals the area code yields its `Ave_ECF` when non-missing,
else the year maps to `None`. -/
def get_ecf_trend (data : Data) (area_code : String) : List (Nat × Option ℚ) :=
  data.ecf_summaries.map (fun p =>
    (p.1, ((p.2.filter (fun r => r.ECF_Area = area_code)).head?).bind (fun r => r.Ave_ECF)))

/-- `dict.get(year)` on an ECF trend: `None` both when the key is absent
and when the stored value is `None`. -/
def trendGet (trend : List (Nat × Option ℚ)) (y : Nat) : Option ℚ :=
  ((trend.find? (fun p => p.1 = y)).map (fun p => p.2)).join

/-! ## `analysis_engine.get_ecf_properties` -/

/-- `get_ecf_properties`: per year, pick the area column
(`ECF_Area_Code` if present, else `ECF_Area`; skip the year if neither
exists), filter to the area, keep rows with a non-missing ECF, and emit
one output record per row. -/
def get_ecf_properties (data : Data) (area_code : String) : List EcfPropRow :=
  (data.ecf_analysis.map (fun p =>
    if p.2.hasECFAreaCode ∨ p.2.hasECFArea then
      ((p.2.rows.filter (fun r =>
          (if p.2.hasECFAreaCode then r.ECF_Area_Code else r.ECF_Area) = area_code)).filter
        (fun r => r.ECF.isSome)).map (fun r =>
        { year := p.1
          address := pyStrip r.Street_Address
          parcel := pyStrip r.Parcel_Number
          sale_price := r.Sale_Price
          cost_man := r.Cost_Man
          ecf := r.ECF })
    else [])).flatten

/-! ## `analysis_engine.get_comparable_sales` -/

/-- Minimum sale price used to filter out lot-only sales. -/
def LOT_ONLY_THRESHOLD : ℚ := 150000

/-- The per-year filtering of `get_comparable_sales` (source lines 70-77):
skip tables without an `ECF_Area` column, filter to the area, apply the
arms-length filter only when the `Terms_of_Sale` column exists
(`na=False`: a missing value never matches), then require a non-missing
adjusted price at or above the lot-only threshold. -/
def filteredSales (t : SalesTable) (area_code : String) : List SalesRow :=
  if t.hasECFArea then
    let a1 := t.rows.filter (fun r => r.ECF_Area = area_code)
    let a2 := if t.hasTerms then
        a1.filter (fun r => match r.Terms_of_Sale with
          | some ts => containsCI ts "ARM"
          | none => false)
      else a1
    a2.filter (fun r => match r.Adj_Sale with
      | some v => LOT_ONLY_THRESHOLD ≤ v
      | none => false)
  else []

/-- The `_dedup_key` of an output row: stripped parcel number, `_`, and the
`%Y-%m-%d` normalisation of the sale date. -/
def dedupKey (r : OutRow) : String :=
  pyStrip r.Parcel_Number ++ "_" ++ isoDate r.Sale_Date.date

/-- `drop_duplicates(subset=key, keep="last")`: a row is kept exactly when
no later row shares its key. -/
def dedupKeepLast (key : OutRow → String) : List OutRow → List OutRow
  | [] => []
  | x :: xs =>
    if key x ∈ xs.map key then dedupKeepLast key xs
    else x :: dedupKeepLast key xs

/-- Boolean string ordering on code points (the order pandas uses when
sorting an object column of strings). -/
def strLeB (a b : String) : Bool :=
  decide (a ≤ b)

/-- Insertion step for the descending sort on the raw `Sale_Date` text. -/
def insertDateDesc (x : OutRow) : List OutRow → List OutRow
  | [] => [x]
  | y :: ys =>
    if strLeB y.Sale_Date.txt x.Sale_Date.txt then x :: y :: ys
    else y :: insertDateDesc x ys

/-- `sort_values("Sale_Date", ascending=False)`: sort rows by the raw date
string, descending (pandas quicksort is unstable, so any order consistent
with the key is a faithful model; every claim is permutation-invariant). -/
def sortByDateDesc (l : List OutRow) : List OutRow :=
  l.foldr insertDateDesc []

/-- The concatenation of all per-year filtered and column-selected sales
frames, in year-iteration (insertion) order. -/
def concatProj (data : Data) (area_code : String) : List OutRow :=
  (data.sales.map (fun p => (filteredSales p.2 area_code).map projRow)).flatten

/-- `get_comparable_sales`: filter each yearly table, concatenate,
deduplicate on (stripped parcel, normalised date) keeping the last-loaded
row, and sort by sale date descending.  An empty concatenation yields the
empty frame. -/
def get_comparable_sales (data : Data) (area_code : String) : List OutRow :=
  sortByDateDesc (dedupKeepLast dedupKey (concatProj data area_code))

/-! ## `analysis_engine.compute_sales_stats` -/

/-- Summary statistics of `compute_sales_stats` for a nonempty frame.
`mean`, `median`, `min`, `max` are exact rationals; when the dropna-ed price
list is empty those four fields are NaN in Python and are modelled as 0
(every downstream read of them is guarded by `count > 0`). -/
structure SalesStats where
  count : Nat
  mean : ℚ
  median : ℚ
  min : ℚ
  max : ℚ
  pct_below_tcv : ℚ
  pct_above_tcv : ℚ
  delta_from_median : ℚ
  delta_pct : ℚ
  deriving DecidableEq

/-- Result of `compute_sales_stats`: the `{"count": 0}` dict for an empty
frame, or the full statistics record. -/
inductive SalesStatsR where
  | empty
  | stats (s : SalesStats)
  deriving DecidableEq

/-- `sales_stats.get("count", 0)`. -/
def SalesStatsR.countOf : SalesStatsR → Nat
  | .empty => 0
  | .stats s => s.count

/-- `sales_stats["median"]` (only read under a `count > 0` guard;
the empty-dict case is modelled as 0). -/
def SalesStatsR.medianOf : SalesStatsR → ℚ
  | .empty => 0
  | .stats s => s.median

/-- `sales_stats["mean"]` (only read under a `count > 0` guard). -/
def SalesStatsR.meanOf : SalesStatsR → ℚ
  | .empty => 0
  | .stats s => s.mean

/-- `compute_sales_stats`: on a nonempty frame, drop missing adjusted
prices and compute count, mean, median, min, max, the percentage of prices
below the user TCV, its complement, and the signed and percentage delta
of the user TCV from the median. -/
def compute_sales_stats (sales_df : List OutRow) (user_tcv : ℚ) : SalesStatsR :=
  match sales_df with
  | [] => .empty
  | _ =>
    let prices := sales_df.filterMap (fun r => r.Adj_Sale)
    let count := prices.length
    let median := pyMedian prices
    let pct_below : ℚ :=
      if count > 0 then ((prices.filter (fun p => p < user_tcv)).length : ℚ) / (count : ℚ) * 100
      else 0
    .stats
      { count := count
        mean := pyMean prices
        median := median
        min := pyMinimum prices
        max := pyMaximum prices
        pct_below_tcv := pct_below
        pct_above_tcv := 100 - pct_below
        delta_from_median := user_tcv - median
        delta_pct := if median > 0 then (user_tcv - median) / median * 100 else 0 }

/-! ## `analysis_engine._compute_recommended_values` and the appeal gate -/

/-- The candidate list built at the top of `_compute_recommended_values`. -/
def recommendCandidates (ecf_2026 : Option ℚ) (user_tcv : ℚ)
    (sales_stats : SalesStatsR) : List ℚ :=
  (match ecf_2026 with
    | some e => if e < 1 then [user_tcv * e] else []
    | none => []) ++
  (if sales_stats.countOf > 0 then [sales_stats.medianOf, sales_stats.meanOf] else [])

/-- `_compute_recommended_values`: empty candidate set returns the TCV
twice; otherwise the primary ask is the sales median when sales exist,
else the ECF-adjusted value when the 2026 ECF is below 1.0, else the TCV,
and the high end is the maximum candidate. -/
def computeRecommendedValues (ecf_2026 : Option ℚ) (user_tcv : ℚ)
    (sales_stats : SalesStatsR) : ℚ × ℚ :=
  let candidates := recommendCandidates ecf_2026 user_tcv sales_stats
  if candidates = [] then (user_tcv, user_tcv)
  else
    let primary :=
      if sales_stats.countOf > 0 then sales_stats.medianOf
      else match ecf_2026 with
        | some e => if e < 1 then user_tcv * e else user_tcv
        | none => user_tcv
    (primary, pyMaximum candidates)

/-- `rec_sev = round(rec_low / 2 / 5000) * 5000` (source line 232). -/
def recSevOf (rec_low : ℚ) : ℚ :=
  (pyRound (rec_low / 2 / 5000) : ℚ) * 5000

/-! ## `analysis_engine.get_land_value_trends` -/

/-- One output row of `get_land_value_trends`. -/
structure LandTrendRow where
  year : Nat
  adjust_factor : Option ℚ
  prior_lv : Option ℚ
  current_lv : Option ℚ
  deriving DecidableEq

/-- The value picked from the land-value cells of a year for one area (source
lines 148 and 152): the first entry of `Series.mode()` when the mode list
is nonempty, otherwise the median.  `pdMode` returns the modal values in
ascending order, so the picked value is the least modal value; the median
branch is kept verbatim from the source even though `mode` of a nonempty
series is never empty. -/
def landValuePick (vals : List ℚ) : Option ℚ :=
  match pdMode vals with
  | m :: _ => some m
  | [] => some (pyMedian vals)

/-- The `if len(vals) > 0` guard around the land-value pick
(source lines 147-148 and 151-152). -/
def pickIfAny (vals : List ℚ) : Option ℚ :=
  if vals.length > 0 then landValuePick vals else none

/-- The rows of the land table matched to the area (source lines 139-143):
prefer the clean `Area_Code` column, fall back to `ECF_Area` (an absent
`ECF_Area` yields an empty match, like `df.get` with an empty default
series). -/
def landAreaRows (landT : LandTable) (area_code : String) : List LandRow :=
  if landT.hasAreaCode then
    landT.rows.filter (fun r => pyStrip r.Area_Code = area_code)
  else if landT.hasECFArea then
    landT.rows.filter (fun r => pyStrip r.ECF_Area = area_code)
  else []

/-- The `(prior_lv, current_lv)` pair computed for one year inside
`get_land_value_trends` (source lines 136-152): each land value requires
its column to exist and at least one non-missing cell. -/
def landValuesForYear (landT : LandTable) (area_code : String) : Option ℚ × Option ℚ :=
  match landAreaRows landT area_code with
  | [] => (none, none)
  | _ =>
    (if landT.hasPrior then
       pickIfAny ((landAreaRows landT area_code).filterMap (fun r => r.Land_Value_Prior))
     else none,
     if landT.hasCurrent then
       pickIfAny ((landAreaRows landT area_code).filterMap (fun r => r.Land_Value_Current))
     else none)

/-- The loop body of `get_land_value_trends` for one year: skip the year
when it has no land-adjustment table or no adjustment row for the area;
otherwise take the factor of the first matching row and the land values
(no land table for the year means both values are missing). -/
def landTrendForYear (data : Data) (area_code : String) (year : Nat) :
    Option LandTrendRow :=
  match dictLookup data.land_adj year with
  | none => none
  | some df =>
    match df.filter (fun r => r.Area_Code = area_code) with
    | [] => none
    | m :: _ =>
      let lv : Option ℚ × Option ℚ :=
        match dictLookup data.land year with
        | none => (none, none)
        | some landT => landValuesForYear landT area_code
      some { year := year
             adjust_factor := m.Adjust_Factor
             prior_lv := lv.1
             current_lv := lv.2 }

/-- `get_land_value_trends`: iterate the literal year list
`[2024, 2025, 2026]` in that (ascending) order, collecting the rows the
loop body produces. -/
def get_land_value_trends (data : Data) (area_code : String) : List LandTrendRow :=
  [2024, 2025, 2026].filterMap (landTrendForYear data area_code)

/-- Spec-side land-value pick (for the amended C8): the least modal value,
with no median branch — a nonempty value list always has a mode. -/
def landValuePickSpec (vals : List ℚ) : Option ℚ :=
  (pdMode vals).head?

/-- Spec-side guard for the land-value pick. -/
def pickIfAnySpec (vals : List ℚ) : Option ℚ :=
  if vals.length > 0 then landValuePickSpec vals else none

/-- Spec-side variant of `landValuesForYear` using `landValuePickSpec`. -/
def landValuesForYearSpec (landT : LandTable) (area_code : String) : Option ℚ × Option ℚ :=
  match landAreaRows landT area_code with
  | [] => (none, none)
  | _ =>
    (if landT.hasPrior then
       pickIfAnySpec ((landAreaRows landT area_code).filterMap (fun r => r.Land_Value_Prior))
     else none,
     if landT.hasCurrent then
       pickIfAnySpec ((landAreaRows landT area_code).filterMap (fun r => r.Land_Value_Current))
     else none)

/-- Spec-side variant of `landTrendForYear`. -/
def landTrendForYearSpec (data : Data) (area_code : String) (year : Nat) :
    Option LandTrendRow :=
  match dictLookup data.land_adj year with
  | none => none
  | some df =>
    match df.filter (fun r => r.Area_Code = area_code) with
    | [] => none
    | m :: _ =>
      let lv : Option ℚ × Option ℚ :=
        match dictLookup data.land year with
        | none => (none, none)
        | some landT => landValuesForYearSpec landT area_code
      some { year := year
             adjust_factor := m.Adjust_Factor
             prior_lv := lv.1
             current_lv := lv.2 }

/-- Spec-side land-value trend (amended C8): ascending fixed years,
`Area_Code` column preferred, least modal value, no median fallback. -/
def specLandTrends (data : Data) (area_code : String) : List LandTrendRow :=
  [2024, 2025, 2026].filterMap (landTrendForYearSpec data area_code)

/-! ## `analysis_engine.check_sales_coverage` -/

/-- `check_sales_coverage`: per year, the number of sales rows whose
`ECF_Area` equals the area code, and 0 when the table has no `ECF_Area`
column. -/
def check_sales_coverage (data : Data) (area_code : String) : List (Nat × Nat) :=
  data.sales.map (fun p =>
    (p.1, if p.2.hasECFArea then (p.2.rows.filter (fun r => r.ECF_Area = area_code)).length
          else 0))

/-! ## `charts.sales_coverage_chart` (text labels of the bar trace)

Only the `text` attribute of the chart is modelled: it is the place the
dashboard renders the "DROPPED" flag for a zero-coverage year. -/

/-- Insertion step for sorting strings ascending. -/
def insertStrAsc (x : String) : List String → List String
  | [] => [x]
  | y :: ys => if strLeB x y then x :: y :: ys else y :: insertStrAsc x ys

/-- Ascending insertion sort on strings. -/
def sortStrAsc (l : List String) : List String :=
  l.foldr insertStrAsc []

/-- The `text` list of `sales_coverage_chart`: for each year (keys sorted
ascending) the count as text, or the literal `"DROPPED"` when the count is
zero. -/
def sales_coverage_chart_text (coverage : List (Nat × Nat)) : List String :=
  let years := sortAscNat ((coverage.map (fun p => p.1)).eraseDups)
  years.map (fun y =>
    let c : Nat := ((coverage.find? (fun p => p.1 = y)).map (fun p => p.2)).getD 0
    if c > 0 then toString c else "DROPPED")

/-! ## `data_loader` models

Numeric parsing (`pd.to_numeric(..., errors="coerce")`) is modelled by
taking the already-parsed `Option ℚ` cell as the raw input; the loader
steps modelled here are the ones that transform values after parsing. -/

/-- The domain filter of `_load_ecf_analysis` (source lines 62-63):
`df.loc[~df["ECF"].between(0.1, 5.0), "ECF"] = pd.NA`.  Note pandas
`between` is inclusive on both bounds, so exactly 0.1 and exactly 5.0 are
kept. -/
def filterEcfDomain (o : Option ℚ) : Option ℚ :=
  match o with
  | some v => if 1/10 ≤ v ∧ v ≤ 5 then some v else none
  | none => none

/-- The per-row transformation of `_load_ecf_analysis`: strip the
`ECF_Area_Code` cell when that column is present and apply the ECF domain
filter. -/
def loadEcfRow (hasCode : Bool) (r : EcfAnalysisRow) : EcfAnalysisRow :=
  { r with
    ECF_Area_Code := if hasCode then lstripApos (pyStrip r.ECF_Area_Code) else r.ECF_Area_Code
    ECF := filterEcfDomain r.ECF }

/-- `_load_ecf_analysis` applied to the raw rows of one year.
(A year whose raw file lacks the `ECF` column is modelled as all-`none`
ECF cells; the `KeyError` that `get_ecf_properties` would then raise on
the missing column is outside every claim.) -/
def loadEcfAnalysis (hasCode hasArea : Bool) (raw : List EcfAnalysisRow) : EcfAnalysisTable :=
  { hasECFAreaCode := hasCode
    hasECFArea := hasArea
    rows := raw.map (loadEcfRow hasCode) }

/-- `_load_ecf_summaries` applied to the raw rows of one year: strip the area
codes, then `groupby("ECF_Area").agg(first)` — one row per area, areas in
ascending order, each taking the first subdivision of the area and first
non-missing average ECF.  No domain filter is applied to `Ave_ECF`. -/
def loadEcfSummaries (raw : List EcfSummaryRow) : List EcfSummaryRow :=
  let rows := raw.map (fun r => { r with ECF_Area := lstripApos (pyStrip r.ECF_Area) })
  let keys := sortStrAsc ((rows.map (fun r => r.ECF_Area)).eraseDups)
  keys.filterMap (fun k =>
    match rows.filter (fun r => r.ECF_Area = k) with
    | [] => none
    | g => some { ECF_Area := k
                  Subdivision := ((g.head?).map (fun r => r.Subdivision)).getD ""
                  Ave_ECF := (g.filterMap (fun r => r.Ave_ECF)).head? })

/-! ## `rc_parser`: regular-expression engine

Python `re` patterns are embedded as an AST (`RE`) and executed by a
fuel-bounded backtracking matcher with the Python leftmost, greedy/lazy
semantics.  Fuel bounds the recursion depth (pattern nesting plus consumed
input), so a generous quadratic fuel makes exhaustion unreachable for the
inputs in this file. -/

/-- Regular-expression AST: empty string, single-character class,
concatenation, alternation (left-biased), greedy/lazy star, greedy/lazy
option, numbered capture group, word boundary, and the `$` anchor. -/
inductive RE where
  | eps
  | cls (p : Char → Bool)
  | cat (a b : RE)
  | alt (a b : RE)
  | star (greedy : Bool) (r : RE)
  | opt (greedy : Bool) (r : RE)
  | group (n : Nat) (r : RE)
  | bnd
  | eOL

/-- Capture bank: group index with start and stop offsets, most recent
first. -/
abbrev Caps := List (Nat × Nat × Nat)

/-- `\w`: letters, digits and underscore. -/
def isWordC (c : Char) : Bool :=
  c.isAlphanum || c = '_'

/-- Whether the character at offset `i` (if any) is a word character. -/
def wordAt (s : List Char) (i : Nat) : Bool :=
  match s.get? i with
  | some c => isWordC c
  | none => false

/-- Whether a word boundary sits before offset `i`. -/
def boundaryAt (s : List Char) (i : Nat) : Bool :=
  match i with
  | 0 => wordAt s 0
  | j + 1 => wordAt s j != wordAt s (j + 1)

/-- The backtracking matcher: match `r` against `s` starting at offset `i`
with capture bank `caps`, calling the continuation `k` on success.
Alternation tries the left branch first; greedy quantifiers try the longer
match first, lazy ones the shorter.  A star body must consume input to
iterate. -/
def reMat (s : List Char) : Nat → RE → Nat → Caps →
    (Nat → Caps → Option (Nat × Caps)) → Option (Nat × Caps)
  | 0, _, _, _, _ => none
  | fuel + 1, r, i, caps, k =>
    match r with
    | .eps => k i caps
    | .cls p =>
      match s.get? i with
      | some c => if p c then k (i + 1) caps else none
      | none => none
    | .cat a b => reMat s fuel a i caps (fun j caps2 => reMat s fuel b j caps2 k)
    | .alt a b =>
      match reMat s fuel a i caps k with
      | some res => some res
      | none => reMat s fuel b i caps k
    | .star g r1 =>
      if g then
        match reMat s fuel r1 i caps (fun j caps2 =>
            if j ≤ i then none else reMat s fuel (.star g r1) j caps2 k) with
        | some res => some res
        | none => k i caps
      else
        match k i caps with
        | some res => some res
        | none => reMat s fuel r1 i caps (fun j caps2 =>
            if j ≤ i then none else reMat s fuel (.star g r1) j caps2 k)
    | .opt g r1 =>
      if g then
        match reMat s fuel r1 i caps k with
        | some res => some res
        | none => k i caps
      else
        match k i caps with
        | some res => some res
        | none => reMat s fuel r1 i caps k
    | .group n r1 => reMat s fuel r1 i caps (fun j caps2 => k j ((n, i, j) :: caps2))
    | .bnd => if boundaryAt s i then k i caps else none
    | .eOL =>
      if i = s.length ∨ (i + 1 = s.length ∧ s.get? i = some '\n') then k i caps
      else none

/-- Fuel: recursion depth is bounded by pattern size plus consumed input,
so a quadratic bound is unreachable on any input in this file. -/
def reFuel (s : List Char) : Nat :=
  (s.length + 4) * (s.length + 4) * 16 + 4096

/-- A successful match: span plus captures. -/
structure RMatch where
  ms : Nat
  me : Nat
  caps : Caps

/-- Try to match `r` at exactly offset `i` (Python `re.match` at `i`). -/
def reMatchAt (r : RE) (s : List Char) (i : Nat) : Option RMatch :=
  match reMat s (reFuel s) r i [] (fun j caps => some (j, caps)) with
  | some (j, caps) => some ⟨i, j, caps⟩
  | none => none

/-- Scan offsets `i, i+1, ...` (at most `rem` of them) for the first
offset where a match starts. -/
def reSearchIdx (r : RE) (s : List Char) : Nat → Nat → Option RMatch
  | _, 0 => none
  | i, rem + 1 =>
    match reMatchAt r s i with
    | some m => some m
    | none => reSearchIdx r s (i + 1) rem

/-- Python `re.search`: first (leftmost) match in the string. -/
def reSearch (r : RE) (s : List Char) : Option RMatch :=
  reSearchIdx r s 0 (s.length + 1)

/-- Characters of `s` from offset `a` (inclusive) to `b` (exclusive). -/
def sliceChars (s : List Char) (a b : Nat) : List Char :=
  (s.drop a).take (b - a)

/-- `m.group(n)` as a string (our patterns only read groups that are
matched whenever the whole pattern matches; an absent group yields `""`). -/
def grpStr (s : List Char) (m : RMatch) (n : Nat) : String :=
  match m.caps.find? (fun c => c.1 = n) with
  | some c => ⟨sliceChars s c.2.1 c.2.2⟩
  | none => ""

/-- `re.sub` scan: replace every non-overlapping match from left to right
(the replacement is a function of the capture bank; our patterns never
match the empty string). -/
def reSubGo (r : RE) (repl : List Char → RMatch → List Char) (s : List Char) :
    Nat → Nat → List Char
  | i, 0 => s.drop i
  | i, rem + 1 =>
    match reSearchIdx r s i (s.length + 1 - i) with
    | none => s.drop i
    | some m =>
      if m.me ≤ i then s.drop i
      else sliceChars s i m.ms ++ repl s m ++ reSubGo r repl s m.me rem

/-- Python `re.sub` with a capture-based replacement. -/
def reSub (r : RE) (repl : List Char → RMatch → List Char) (s : List Char) : List Char :=
  reSubGo r repl s 0 (s.length + 1)

/-- `re.finditer` scan: all non-overlapping matches, left to right. -/
def reFindAllGo (r : RE) (s : List Char) : Nat → Nat → List RMatch
  | _, 0 => []
  | i, rem + 1 =>
    match reSearchIdx r s i (s.length + 1 - i) with
    | none => []
    | some m =>
      if m.me ≤ i then []
      else m :: reFindAllGo r s m.me rem

/-- Python `re.finditer`. -/
def reFindAll (r : RE) (s : List Char) : List RMatch :=
  reFindAllGo r s 0 (s.length + 1)

/-! ### Pattern building blocks -/

/-- A single literal character. -/
def lit1 (c : Char) : RE :=
  .cls (fun x => x = c)

/-- A literal string. -/
def litS (str : String) : RE :=
  str.data.foldr (fun c acc => .cat (lit1 c) acc) .eps

/-- A case-insensitive literal string (for `re.IGNORECASE`). -/
def litCI (str : String) : RE :=
  str.data.foldr (fun c acc => .cat (.cls (fun x => x.toLower = c.toLower)) acc) .eps

/-- Concatenation of a pattern list. -/
def rcat (l : List RE) : RE :=
  l.foldr .cat .eps

/-- Left-biased alternation of a nonempty pattern list. -/
def ralt (l : List RE) : RE :=
  match l with
  | [] => .eps
  | [r] => r
  | r :: rs => .alt r (ralt rs)

/-- `r+` (greedy when `g`). -/
def rplus (g : Bool) (r : RE) : RE :=
  .cat r (.star g r)

/-- `r{n}`. -/
def repN (n : Nat) (r : RE) : RE :=
  rcat (List.replicate n r)

/-- `r{lo,hi}`, greedy. -/
def repRange (lo hi : Nat) (r : RE) : RE :=
  .cat (repN lo r) (rcat (List.replicate (hi - lo) (.opt true r)))

/-- The class `\d`. -/
def dCLS : RE := .cls Char.isDigit

/-- The class `\s`. -/
def sCLS : RE := .cls pyIsSpace

/-- The class `\S`. -/
def nsCLS : RE := .cls (fun c => !pyIsSpace c)

/-- The class `\w`. -/
def wCLS : RE := .cls isWordC

/-- `.` (any character except a newline). -/
def dotC : RE := .cls (fun c => c ≠ '\n')

/-- The class `[A-Z]`. -/
def upCLS : RE := .cls (fun c => 'A' ≤ c ∧ c ≤ 'Z')

/-- The class `[\d,]`. -/
def dcCLS : RE := .cls (fun c => c.isDigit || c = ',')

/-- The class `[\d,\s]`. -/
def dcsCLS : RE := .cls (fun c => c.isDigit || c = ',' || pyIsSpace c)

/-- The class `[A-Z\s]`. -/
def upsCLS : RE := .cls (fun c => ('A' ≤ c ∧ c ≤ 'Z') || pyIsSpace c)

/-! ### `rc_parser` patterns (transcribed one-to-one from the source) -/

/-- Pattern `Parcel Number:\s*(L\s*-[\d\s-]+)`. -/
def reParcel : RE :=
  rcat [litS "Parcel Number:", .star true sCLS,
    .group 1 (rcat [lit1 'L', .star true sCLS, lit1 '-',
      rplus true (.cls (fun c => c.isDigit || pyIsSpace c || c = '-'))])]

/-- The street-suffix alternation `(?:DR|LN|CT|RD|AVE|WAY|BLVD|CIR|ST|PL|TRL)`. -/
def streetSfx : RE :=
  ralt [litS "DR", litS "LN", litS "CT", litS "RD", litS "AVE", litS "WAY",
        litS "BLVD", litS "CIR", litS "ST", litS "PL", litS "TRL"]

/-- Pattern
`(?:Property Address|4\d{3}|[A-Z]\d{3,4})\s*\n?\s*(\d+\s+[A-Z][A-Z\s]+(?:DR|...))`. -/
def reAddr1 : RE :=
  rcat [ralt [litS "Property Address",
              rcat [lit1 '4', repN 3 dCLS],
              rcat [upCLS, repRange 3 4 dCLS]],
        .star true sCLS, .opt true (lit1 '\n'), .star true sCLS,
        .group 1 (rcat [rplus true dCLS, rplus true sCLS, upCLS,
                        rplus true upsCLS, streetSfx])]

/-- Fallback pattern `\b(\d{3,5}\s+[A-Z][A-Z\s]+(?:DR|...))\b`. -/
def reAddr2 : RE :=
  rcat [.bnd,
        .group 1 (rcat [repRange 3 5 dCLS, rplus true sCLS, upCLS,
                        rplus true upsCLS, streetSfx]),
        .bnd]

/-- Pattern
`Land\s+(?:Value\s+Estimates\s+for\s+)?Land\s+Table\s+(\S+?)\.(\S.*?)(?:\n|$)`. -/
def reLandTable : RE :=
  rcat [litS "Land", rplus true sCLS,
    .opt true (rcat [litS "Value", rplus true sCLS, litS "Estimates", rplus true sCLS,
                     litS "for", rplus true sCLS]),
    litS "Land", rplus true sCLS, litS "Table", rplus true sCLS,
    .group 1 (rplus false nsCLS), lit1 '.',
    .group 2 (.cat nsCLS (.star false dotC)),
    .alt (lit1 '\n') .eOL]

/-- Anchored pattern `^[A-Z0-9]+-(.+)` used via `re.match`. -/
def reSubPfx : RE :=
  rcat [rplus true (.cls (fun c => ('A' ≤ c ∧ c ≤ 'Z') || c.isDigit)), lit1 '-',
        .group 1 (rplus true dotC)]

/-- Pattern `2026\s+Est\s+TCV\s+([\d,\s]+)`. -/
def reTcv : RE :=
  rcat [litS "2026", rplus true sCLS, litS "Est", rplus true sCLS, litS "TCV",
        rplus true sCLS, .group 1 (rplus true dcsCLS)]

/-- Pattern `Total\s+Est\.\s+Land\s+value\s*=\s*([\d,\s]+)`. -/
def reLandVal : RE :=
  rcat [litS "Total", rplus true sCLS, litS "Est", lit1 '.', rplus true sCLS,
        litS "Land", rplus true sCLS, litS "value", .star true sCLS, lit1 '=',
        .star true sCLS, .group 1 (rplus true dcsCLS)]

/-- History-row pattern
`[|\(]?\s*(202[3-6])\s+([\d,]+)\s+([\d,]+)\s+([\d,]+)\s+([\d,]+)[cCsS]`. -/
def reHistory : RE :=
  rcat [.opt true (.cls (fun c => c = '|' || c = '(')), .star true sCLS,
    .group 1 (rcat [litS "202", .cls (fun c => '3' ≤ c ∧ c ≤ '6')]),
    rplus true sCLS, .group 2 (rplus true dcCLS),
    rplus true sCLS, .group 3 (rplus true dcCLS),
    rplus true sCLS, .group 4 (rplus true dcCLS),
    rplus true sCLS, .group 5 (rplus true dcCLS),
    .cls (fun c => c = 'c' || c = 'C' || c = 's' || c = 'S')]

/-- OCR-noise pattern `(\d)\s*,\s*(\d)`, replaced by `\1,\2`. -/
def reNorm : RE :=
  rcat [.group 1 dCLS, .star true sCLS, lit1 ',', .star true sCLS, .group 2 dCLS]

/-- The building-style keyword alternation, case-sensitive or not. -/
def styleKw (ci : Bool) : RE :=
  ralt (["TWO", "ONE", "TRI", "BI", "SPLIT", "RANCH", "CAPE", "COLONIAL",
         "BUNGALOW"].map (fun w => if ci then litCI w else litS w))

/-- The class `[\w-]`. -/
def wdCLS : RE := .cls (fun c => isWordC c || c = '-')

/-- Pattern `Building\s+Style:\s*((?:TWO|ONE|...)[\w-]*)`. -/
def reStyle1 : RE :=
  rcat [litS "Building", rplus true sCLS, litS "Style:", .star true sCLS,
        .group 1 (.cat (styleKw false) (.star true wdCLS))]

/-- Pattern `Single\s+Family\s+((?:TWO|ONE|...)[\w-]*)` with `re.IGNORECASE`. -/
def reStyle2 : RE :=
  rcat [litCI "Single", rplus true sCLS, litCI "Family", rplus true sCLS,
        .group 1 (.cat (styleKw true) (.star true wdCLS))]

/-- Pattern `(?:Blt|B[Il]t)\s+(\d{4})`. -/
def reBlt : RE :=
  rcat [ralt [litS "Blt", rcat [lit1 'B', .cls (fun c => c = 'I' || c = 'l'), lit1 't']],
        rplus true sCLS, .group 1 (repN 4 dCLS)]

/-- Pattern `(\d{4})\s*(?:Actua|Actual)`. -/
def reActua : RE :=
  rcat [.group 1 (repN 4 dCLS), .star true sCLS, ralt [litS "Actua", litS "Actual"]]

/-- Pattern `Yr\s+Built.*?(\d{4})`. -/
def reYrBuilt : RE :=
  rcat [litS "Yr", rplus true sCLS, litS "Built", .star false dotC,
        .group 1 (repN 4 dCLS)]

/-- Pattern `Condition:\s*(\w+)`. -/
def reCondition : RE :=
  rcat [litS "Condition:", .star true sCLS, .group 1 (rplus true wCLS)]

/-- Pattern `Effec\.\s*Age:\s*(\d+)`. -/
def reEffAge : RE :=
  rcat [litS "Effec", lit1 '.', .star true sCLS, litS "Age:", .star true sCLS,
        .group 1 (rplus true dCLS)]

/-- Pattern `Floor\s+Area:\s*(\d[\d,]+)`. -/
def reFloorArea : RE :=
  rcat [litS "Floor", rplus true sCLS, litS "Area:", .star true sCLS,
        .group 1 (.cat dCLS (rplus true dcCLS))]

/-- Pattern `Ground\s+Area\s*=\s*(\d[\d,]+)\s*SF`. -/
def reGroundArea : RE :=
  rcat [litS "Ground", rplus true sCLS, litS "Area", .star true sCLS, lit1 '=',
        .star true sCLS, .group 1 (.cat dCLS (rplus true dcCLS)),
        .star true sCLS, litS "SF"]

/-- Pattern `Basement:\s*(\d[\d,]+)\s*S\.?F\.?`. -/
def reBasement : RE :=
  rcat [litS "Basement:", .star true sCLS, .group 1 (.cat dCLS (rplus true dcCLS)),
        .star true sCLS, lit1 'S', .opt true (lit1 '.'), lit1 'F', .opt true (lit1 '.')]

/-- Pattern `Total\s+Base\s+New:\s*([\d,\s]+)`. -/
def reBaseNew : RE :=
  rcat [litS "Total", rplus true sCLS, litS "Base", rplus true sCLS, litS "New:",
        .star true sCLS, .group 1 (rplus true dcsCLS)]

/-- Pattern `Total\s+Depr\s+Cost:\s*([\d,\s]+)`. -/
def reDeprCost : RE :=
  rcat [litS "Total", rplus true sCLS, litS "Depr", rplus true sCLS, litS "Cost:",
        .star true sCLS, .group 1 (rplus true dcsCLS)]

/-- Pattern `(?:E\.?C\.?F\.?|X)\s+(0\.\d{2,4})`. -/
def reEcf : RE :=
  rcat [ralt [rcat [lit1 'E', .opt true (lit1 '.'), lit1 'C', .opt true (lit1 '.'),
                    lit1 'F', .opt true (lit1 '.')],
              lit1 'X'],
        rplus true sCLS, .group 1 (rcat [lit1 '0', lit1 '.', repRange 2 4 dCLS])]

/-- Pattern `Estimated\s+T\.?[cC]\.?V\.?:?\s*([\d,\s]+)`. -/
def reEstTcv : RE :=
  rcat [litS "Estimated", rplus true sCLS, lit1 'T', .opt true (lit1 '.'),
        .cls (fun c => c = 'c' || c = 'C'), .opt true (lit1 '.'), lit1 'V',
        .opt true (lit1 '.'), .opt true (lit1 ':'), .star true sCLS,
        .group 1 (rplus true dcsCLS)]

/-! ### `rc_parser` data and helpers -/

/-- One row of the assessment-history table (`AssessmentYear`). -/
structure AssessmentYear where
  year : Nat
  land_value : Option Nat := none
  building_value : Option Nat := none
  assessed_value : Option Nat := none
  taxable_value : Option Nat := none
  deriving DecidableEq

/-- Parsed property data (`PropertyData`), with the dataclass defaults.
Monetary fields are `Nat`: every value reaching them is parsed from a run
of decimal digits. -/
structure PropertyData where
  parcel_number : String := ""
  address : String := ""
  area_code : String := ""
  subdivision : String := ""
  sev_2026 : Nat := 0
  tcv_2026 : Nat := 0
  land_value : Nat := 0
  ecf : Option ℚ := none
  floor_area : Nat := 0
  ground_area : Nat := 0
  basement_sf : Nat := 0
  year_built : Nat := 0
  condition : String := ""
  style : String := ""
  effective_age : Nat := 0
  total_base_new : Nat := 0
  total_depr_cost : Nat := 0
  estimated_tcv_cost : Nat := 0
  assessment_history : List AssessmentYear := []
  raw_text_page1 : String := ""
  raw_text_page2 : String := ""
  deriving DecidableEq

/-- Decimal digits to a natural number. -/
def digitsToNat (l : List Char) : Nat :=
  l.foldl (fun n c => n * 10 + (c.toNat - 48)) 0

/-- `_clean_number`: remove commas, whitespace and dollar signs, strip a
trailing run of letters, then parse an integer; a string that still is not
a plain digit run yields `None`. -/
def cleanNumber (s : String) : Option Nat :=
  let cleaned := s.data.filter (fun c => !(c = ',' || pyIsSpace c || c = '$'))
  let cleaned2 := (cleaned.reverse.dropWhile Char.isAlpha).reverse
  if cleaned2 ≠ [] ∧ cleaned2.all Char.isDigit then some (digitsToNat cleaned2)
  else none

/-- `float()` applied to a `0.dd`-shaped capture of `reEcf`. -/
def parseZeroDotQ (s : String) : Option ℚ :=
  match s.data with
  | '0' :: '.' :: ds =>
    if ds ≠ [] ∧ ds.all Char.isDigit then
      some ((digitsToNat ds : ℚ) / ((10 : ℚ) ^ ds.length))
    else none
  | _ => none

/-- `_normalize_ocr_numbers`: collapse `digit , digit` with stray spaces
into `digit,digit` (a single left-to-right `re.sub` pass). -/
def normalizeOcrNumbers (text : String) : String :=
  ⟨reSub reNorm
    (fun s m => (grpStr s m 1).data ++ [','] ++ (grpStr s m 2).data) text.data⟩

/-- `re.sub(r"\s+", "", s)`. -/
def removeWs (s : String) : String :=
  ⟨s.data.filter (fun c => !pyIsSpace c)⟩

/-- `" ".join(s.split())`. -/
def joinWords (s : String) : String :=
  String.intercalate " " ((s.split pyIsSpace).filter (fun w => w ≠ ""))

/-- Python `str.capitalize()`. -/
def pyCapitalize (s : String) : String :=
  match s.data with
  | [] => ""
  | c :: cs => ⟨c.toUpper :: cs.map Char.toLower⟩

/-- Python `str.replace(a, b)` for single characters. -/
def replaceChar (s : String) (a b : Char) : String :=
  ⟨s.data.map (fun c => if c = a then b else c)⟩

/-- Stable insertion (after equal years) for the history sort. -/
def insertAY (x : AssessmentYear) : List AssessmentYear → List AssessmentYear
  | [] => [x]
  | y :: ys => if y.year ≤ x.year then y :: insertAY x ys else x :: y :: ys

/-- `list.sort(key=lambda a: a.year)`: stable ascending sort by year. -/
def sortHistByYear (l : List AssessmentYear) : List AssessmentYear :=
  l.foldl (fun acc x => insertAY x acc) []

/-- The `AssessmentYear` built from one history-row match. -/
def ayOfMatch (s : List Char) (m : RMatch) : AssessmentYear :=
  { year := digitsToNat (grpStr s m 1).data
    land_value := cleanNumber (grpStr s m 2)
    building_value := cleanNumber (grpStr s m 3)
    assessed_value := cleanNumber (grpStr s m 4)
    taxable_value := cleanNumber (grpStr s m 5) }

/-- `_parse_assessment_history`: normalise OCR numbers, collect all
history-row matches in order, append them to the history of the record, set the
headline assessed value from the (last) 2026 row (`or 0` maps a missing or
zero value to 0), and sort the history ascending by year.  The source
mutates the record row by row; the loop is rewritten as one simultaneous
update, equivalent because the loop reads only what it wrote
(`assessment_history`, `sev_2026`). -/
def parseAssessmentHistory (text : String) (prop : PropertyData) : PropertyData :=
  let norm := (normalizeOcrNumbers text).data
  let rows := (reFindAll reHistory norm).map (ayOfMatch norm)
  { prop with
    assessment_history := sortHistByYear (prop.assessment_history ++ rows)
    sev_2026 :=
      match (rows.filter (fun a => a.year = 2026)).getLast? with
      | some ay => ay.assessed_value.getD 0
      | none => prop.sev_2026 }

/-- `_parse_page1`: extract parcel number, address (primary pattern, then
fallback), area code and subdivision from the Land-Table line, the 2026
Est TCV and total land value, then the assessment history.  The source
assigns fields sequentially; no extractor reads a field another one
writes, so the updates are combined into one simultaneous record update
(the history/sev pair is computed jointly as in the source). -/
def parsePage1 (text : String) (prop : PropertyData) : PropertyData :=
  let s := text.data
  let parcel :=
    match reSearch reParcel s with
    | some m => removeWs (grpStr s m 1)
    | none => prop.parcel_number
  let addr :=
    match reSearch reAddr1 s with
    | some m => joinWords (grpStr s m 1)
    | none =>
      match reSearch reAddr2 s with
      | some m => joinWords (grpStr s m 1)
      | none => prop.address
  let areaSub : String × String :=
    match reSearch reLandTable s with
    | some m =>
      let raw_sub := pyStrip (grpStr s m 2)
      let raw_sub2 :=
        match reMatchAt reSubPfx raw_sub.data 0 with
        | some m2 => pyStrip (grpStr raw_sub.data m2 1)
        | none => raw_sub
      (pyStrip (grpStr s m 1),
       pyStrip (replaceChar (replaceChar raw_sub2 '-' ' ') '_' ' '))
    | none => (prop.area_code, prop.subdivision)
  let tcv :=
    match reSearch reTcv s with
    | some m => (cleanNumber (grpStr s m 1)).getD 0
    | none => prop.tcv_2026
  let landv :=
    match reSearch reLandVal s with
    | some m => (cleanNumber (grpStr s m 1)).getD 0
    | none => prop.land_value
  parseAssessmentHistory text
    { prop with
      parcel_number := parcel
      address := addr
      area_code := areaSub.1
      subdivision := areaSub.2
      tcv_2026 := tcv
      land_value := landv }

/-- `_parse_page2`: extract the physical and cost-approach fields.  As for
page 1, the sequential field assignments are combined into one
simultaneous update, equivalent because the extractions are independent. -/
def parsePage2 (text : String) (prop : PropertyData) : PropertyData :=
  let s := text.data
  let style :=
    match reSearch reStyle1 s with
    | some m => upperStr (pyStrip (grpStr s m 1))
    | none =>
      match reSearch reStyle2 s with
      | some m => upperStr (pyStrip (grpStr s m 1))
      | none => prop.style
  let yearBuilt :=
    match reSearch reBlt s with
    | some m => digitsToNat (grpStr s m 1).data
    | none =>
      match reSearch reActua s with
      | some m => digitsToNat (grpStr s m 1).data
      | none =>
        match reSearch reYrBuilt s with
        | some m => digitsToNat (grpStr s m 1).data
        | none => prop.year_built
  let cond :=
    match reSearch reCondition s with
    | some m => pyCapitalize (grpStr s m 1)
    | none => prop.condition
  let effAge :=
    match reSearch reEffAge s with
    | some m => digitsToNat (grpStr s m 1).data
    | none => prop.effective_age
  let floorA :=
    match reSearch reFloorArea s with
    | some m => (cleanNumber (grpStr s m 1)).getD 0
    | none => prop.floor_area
  let groundA :=
    match reSearch reGroundArea s with
    | some m => (cleanNumber (grpStr s m 1)).getD 0
    | none => prop.ground_area
  let basementA :=
    match reSearch reBasement s with
    | some m => (cleanNumber (grpStr s m 1)).getD 0
    | none => prop.basement_sf
  let baseNew :=
    match reSearch reBaseNew s with
    | some m => (cleanNumber (grpStr s m 1)).getD 0
    | none => prop.total_base_new
  let deprCost :=
    match reSearch reDeprCost s with
    | some m => (cleanNumber (grpStr s m 1)).getD 0
    | none => prop.total_depr_cost
  let ecfVal :=
    match reSearch reEcf s with
    | some m =>
      match parseZeroDotQ (grpStr s m 1) with
      | some q => some q
      | none => prop.ecf
    | none => prop.ecf
  let estTcv :=
    match reSearch reEstTcv s with
    | some m => (cleanNumber (grpStr s m 1)).getD 0
    | none => prop.estimated_tcv_cost
  { prop with
    style := style
    year_built := yearBuilt
    condition := cond
    effective_age := effAge
    floor_area := floorA
    ground_area := groundA
    basement_sf := basementA
    total_base_new := baseNew
    total_depr_cost := deprCost
    ecf := ecfVal
    estimated_tcv_cost := estTcv }

/-- The final fallback of `parse_rc_pdf` (source lines 240-242): when no
assessed value was found in the history table but a TCV was extracted,
derive the assessed value as `tcv // 2` (floor division). -/
def applySevFallback (prop : PropertyData) : PropertyData :=
  if prop.sev_2026 = 0 ∧ prop.tcv_2026 > 0 then
    { prop with sev_2026 := prop.tcv_2026 / 2 }
  else prop

/-- `parse_rc_pdf`, over the list of per-page OCR texts.  Rendering a page
and running text recognition (`_ocr_page`) is external I/O; a document
that opened successfully is modelled as the list of page texts the OCR
would return.  Page 1 is processed when at least one page exists, page 2
when at least two exist, and no further page is ever touched; the source
open-failure path (corrupt bytes) raises before any of this. -/
def parse_rc_pdf (pages : List String) : PropertyData :=
  let prop : PropertyData := {}
  let prop1 :=
    match pages with
    | [] => prop
    | t1 :: _ => parsePage1 t1 { prop with raw_text_page1 := t1 }
  let prop2 :=
    match pages with
    | _ :: t2 :: _ => parsePage2 t2 { prop1 with raw_text_page2 := t2 }
    | _ => prop1
  applySevFallback prop2

/-! ## Python string formatting (used by the petition composer) -/

/-- `c * n` on strings: `n` copies of a character. -/
def repChar (n : Nat) (c : Char) : String :=
  ⟨List.replicate n c⟩

/-- The `"=" * 70` banner line. -/
def eqRule : String := repChar 70 '='

/-- The `"-" * 70` banner line. -/
def dashRule : String := repChar 70 '-'

/-- Right-align into a field of width `w` (`{s:>ws}`). -/
def padLeft (w : Nat) (s : String) : String :=
  repChar (w - s.length) ' ' ++ s

/-- Left-align into a field of width `w` (`{s:<ws}` / `{s:ws}`). -/
def padRight (w : Nat) (s : String) : String :=
  s ++ repChar (w - s.length) ' '

/-- Comma insertion over reversed digit characters (`k` digits emitted). -/
def commaRev : List Char → Nat → List Char
  | [], _ => []
  | c :: cs, k =>
    if k % 3 = 0 ∧ k ≠ 0 then ',' :: c :: commaRev cs (k + 1)
    else c :: commaRev cs (k + 1)

/-- `{n:,}`: decimal digits grouped in threes by commas. -/
def commaGroup (n : Nat) : String :=
  ⟨(commaRev (toString n).data.reverse 0).reverse⟩

/-- `{q:,.0f}`: round half to even, group with commas; a negative value
rounding to zero renders as `-0`, as Python does. -/
def fmtMoney0 (q : ℚ) : String :=
  let r := pyRound q
  if q < 0 then "-" ++ commaGroup r.natAbs else commaGroup r.natAbs

/-- `{q:+,.0f}`: as `fmtMoney0` with an explicit sign. -/
def fmtMoneyS0 (q : ℚ) : String :=
  let r := pyRound q
  if q < 0 then "-" ++ commaGroup r.natAbs else "+" ++ commaGroup r.natAbs

/-- `{q:.df}`: fixed-point with `d` decimals (half-even), no grouping. -/
def fmtFixed (d : Nat) (q : ℚ) : String :=
  let m := (pyRound (q * (10 : ℚ) ^ d)).natAbs
  let core :=
    if d = 0 then toString m
    else toString (m / 10 ^ d) ++ "." ++ padNum d (m % 10 ^ d)
  if q < 0 then "-" ++ core else core

/-- `{q:+.df}`: as `fmtFixed` with an explicit sign. -/
def fmtFixedS (d : Nat) (q : ℚ) : String :=
  (if q < 0 then "-" else "+") ++
  (let m := (pyRound (q * (10 : ℚ) ^ d)).natAbs
   if d = 0 then toString m
   else toString (m / 10 ^ d) ++ "." ++ padNum d (m % 10 ^ d))

/-! ## `analysis_engine.generate_appeal_summary` -/

/-- `sales_stats["min"]` (read under a `count > 0` guard). -/
def SalesStatsR.minOf : SalesStatsR → ℚ
  | .empty => 0
  | .stats s => s.min

/-- `sales_stats["max"]` (read under a `count > 0` guard). -/
def SalesStatsR.maxOf : SalesStatsR → ℚ
  | .empty => 0
  | .stats s => s.max

/-- `sales_stats["pct_below_tcv"]` (read under a `count > 0` guard). -/
def SalesStatsR.pctBelowOf : SalesStatsR → ℚ
  | .empty => 0
  | .stats s => s.pct_below_tcv

/-- `sales_stats["delta_from_median"]` (read under a `count > 0` guard). -/
def SalesStatsR.deltaOf : SalesStatsR → ℚ
  | .empty => 0
  | .stats s => s.delta_from_median

/-- `sales_stats["delta_pct"]` (read under a `count > 0` guard). -/
def SalesStatsR.deltaPctOf : SalesStatsR → ℚ
  | .empty => 0
  | .stats s => s.delta_pct

/-- The per-property ECF lookup built at source lines 409-416 and read at
432-435: key = stripped, uppercased address; per (address, year) the last
written non-missing ECF wins, exactly the dict-overwrite semantics. -/
def lookupEcf (props : List EcfPropRow) (addr_key : String) (year : Nat) : Option ℚ :=
  ((props.filter (fun ep =>
      upperStr (pyStrip ep.address) = addr_key ∧ ep.year = year ∧ ep.ecf.isSome)).getLast?).bind
    (fun ep => ep.ecf)

/-- One row of the per-sale evidence table (source lines 422-436); rows
with a missing adjusted price emit nothing. -/
def saleTableLine (user_tcv : ℚ) (ecf_properties : List EcfPropRow) (row : OutRow) :
    List String :=
  let addr := pyStrip row.Street_Address
  let addr_display := addr.take 28
  let addr_key := upperStr addr
  let date := (pyStrip row.Sale_Date.txt).take 12
  match row.Adj_Sale with
  | none => []
  | some price =>
    let diff_str := "$" ++ fmtMoneyS0 (price - user_tcv)
    let e26 := match lookupEcf ecf_properties addr_key 2026 with
      | some v => fmtFixed 3 v
      | none => "   -  "
    let e25 := match lookupEcf ecf_properties addr_key 2025 with
      | some v => fmtFixed 3 v
      | none => "   -  "
    let e24 := match lookupEcf ecf_properties addr_key 2024 with
      | some v => fmtFixed 3 v
      | none => "   -  "
    ["  " ++ padRight 28 addr_display ++ " $" ++ padLeft 11 (fmtMoney0 price) ++ " " ++
      padLeft 12 date ++ " " ++ padLeft 12 diff_str ++ " " ++ padLeft 7 e26 ++ " " ++
      padLeft 7 e25 ++ " " ++ padLeft 7 e24]

/-- One land-trend bullet line (source lines 467-480), together with the
`first_lv` / `last_lv` state updates (Python truthiness throughout). -/
def landTrendStep (st : Option ℚ × Option ℚ × List String) (lt : LandTrendRow) :
    Option ℚ × Option ℚ × List String :=
  let first_lv := if truthy lt.prior_lv ∧ st.1 = none then lt.prior_lv else st.1
  let last_lv := if truthy lt.current_lv then lt.current_lv else st.2.1
  let line : List String :=
    match lt.adjust_factor with
    | some f =>
      let pct := (f - 1) * 100
      let current_str :=
        if truthy lt.current_lv then "$" ++ fmtMoney0 (lt.current_lv.getD 0) else "N/A"
      ["  - " ++ toString lt.year ++ " Land Value: " ++ current_str ++
        " (Adjustment Factor: " ++ fmtFixed 4 f ++ ", " ++ fmtFixedS 1 pct ++ "%)"]
    | none =>
      if truthy lt.current_lv then
        ["  - " ++ toString lt.year ++ " Land Value: $" ++ fmtMoney0 (lt.current_lv.getD 0)]
      else []
  (first_lv, last_lv, st.2.2 ++ line)

/-- The short-form "not recommended" block of `generate_appeal_summary`
(source lines 239-270), with the precomputed `user_tcv`, `ecf_2026` and
`ecf_adjusted` passed in. -/
def appealShortLines (area_code subdivision : String) (user_sev user_tcv : ℚ)
    (ecf_2026 ecf_adjusted : Option ℚ) (sales_stats : SalesStatsR)
    (prop : Option PropertyData) : List String :=
  eqRule ::
  "APPEAL ANALYSIS — NOT RECOMMENDED" ::
  eqRule ::
  "" ::
    ((match prop with
      | some p => if p.address ≠ "" then ["Property:  " ++ p.address] else []
      | none => []) ++
    ["Area:      " ++ area_code ++ " (" ++ subdivision ++ ")",
     "Your SEV:  $" ++ fmtMoney0 user_sev ++ "  (TCV: $" ++ fmtMoney0 user_tcv ++ ")",
     "",
     "Based on the available evidence, an appeal is NOT recommended",
     "for this property. The current assessment appears to be at or",
     "below market value:",
     ""] ++
    (if sales_stats.countOf > 0 then
      ["  - Median of " ++ toString sales_stats.countOf ++ " comparable sales: $" ++
        fmtMoney0 sales_stats.medianOf,
       "  - Average of " ++ toString sales_stats.countOf ++ " comparable sales: $" ++
        fmtMoney0 sales_stats.meanOf]
     else []) ++
    (if truthy ecf_adjusted then
      ["  - ECF-adjusted value (ECF=" ++ fmtFixed 3 (ecf_2026.getD 0) ++ "):   $" ++
        fmtMoney0 (ecf_adjusted.getD 0)]
     else []) ++
    ["  - Your current TCV:                      $" ++ fmtMoney0 user_tcv, ""] ++
    (if sales_stats.countOf > 0 ∧ sales_stats.medianOf ≥ user_tcv then
      ["The median sale price ($" ++ fmtMoney0 sales_stats.medianOf ++ ") is at or above your",
       "TCV ($" ++ fmtMoney0 user_tcv ++ "), meaning comparable sales support the current",
       "assessment. The Board of Review is unlikely to grant a reduction."]
     else if truthy ecf_adjusted ∧ ecf_adjusted.getD 0 < user_tcv ∧ sales_stats.countOf > 0 then
      ["While the ECF (" ++ fmtFixed 3 (ecf_2026.getD 0) ++ ") suggests some overvaluation, the median",
       "sale price ($" ++ fmtMoney0 sales_stats.medianOf ++ ") supports the current assessment.",
       "An ECF-only argument would be aggressive and may not succeed."]
     else []) ++
    ["", eqRule])

/-- The long-form petition block of `generate_appeal_summary`
(source lines 272-571), with the precomputed values passed in. -/
def appealLongLines (area_code subdivision : String) (user_sev user_tcv rec_sev : ℚ)
    (ecf_2026 ecf_adjusted : Option ℚ) (ecf_trend : List (Nat × Option ℚ))
    (sales_stats : SalesStatsR) (land_trends : List LandTrendRow)
    (ecf_properties : List EcfPropRow) (sales_df : Option (List OutRow))
    (prop : Option PropertyData) : List String :=
    let rec_tcv := rec_sev * 2
    let taxable : Option Nat :=
      match prop with
      | some p =>
        if p.assessment_history ≠ [] then
          match p.assessment_history.find? (fun h => h.year = 2026) with
          | some h2026 =>
            match h2026.taxable_value with
            | some tv => if tv ≠ 0 then some tv else none
            | none => none
          | none => none
        else none
      | none => none
    let n2 : Nat := if ecf_2026 ≠ none then 2 else 1
    let n3 : Nat := n2 + (if sales_stats.countOf > 0 then 1 else 0)
    "PETITION TO THE BOARD OF REVIEW" ::
    "Pittsfield Charter Township, Washtenaw County, Michigan" ::
    "Tax Year 2026" ::
    "" ::
    ([eqRule, "PROPERTY INFORMATION", eqRule] ++
    (match prop with
      | some p =>
        (if p.parcel_number ≠ "" then ["Parcel Number:    " ++ p.parcel_number] else []) ++
        (if p.address ≠ "" then ["Property Address: " ++ p.address ++ ", Ypsilanti, MI 48197"] else [])
      | none => []) ++
    ["Township:         Pittsfield Charter Township",
     "County:           Washtenaw",
     "School District:  Ann Arbor Public Schools",
     "Classification:   Residential (401)",
     "ECF Area:         " ++ area_code ++ " (" ++ subdivision ++ ")"] ++
    (match prop with
      | some p =>
        let details :=
          (if p.style ≠ "" then [p.style] else []) ++
          (if p.year_built ≠ 0 then ["Built " ++ toString p.year_built] else []) ++
          (if p.floor_area ≠ 0 then [commaGroup p.floor_area ++ " SF"] else [])
        if details ≠ [] then ["Property:         " ++ String.intercalate ", " details] else []
      | none => []) ++
    ["",
     eqRule, "ASSESSMENT VALUES", eqRule,
     padRight 30 "" ++ " " ++ padLeft 14 "Current 2026" ++ "  " ++ padLeft 14 "Petitioner" ++
       "  " ++ padLeft 14 "Difference",
     repChar 30 '-' ++ " " ++ repChar 14 '-' ++ "  " ++ repChar 14 '-' ++ "  " ++ repChar 14 '-',
     padRight 30 "Assessed Value (SEV)" ++ " $" ++ padLeft 13 (fmtMoney0 user_sev) ++ "  $" ++
       padLeft 13 (fmtMoney0 rec_sev) ++ "  $" ++ padLeft 13 (fmtMoneyS0 (rec_sev - user_sev)),
     padRight 30 "True Cash Value (TCV)" ++ " $" ++ padLeft 13 (fmtMoney0 user_tcv) ++ "  $" ++
       padLeft 13 (fmtMoney0 rec_tcv) ++ "  $" ++ padLeft 13 (fmtMoneyS0 (rec_tcv - user_tcv))] ++
    (match taxable with
      | some tv =>
        [padRight 30 "Taxable Value" ++ " $" ++ padLeft 13 (commaGroup tv) ++ "  $" ++
          padLeft 13 (commaGroup tv) ++ "  $" ++ padLeft 13 "0"]
      | none => []) ++
    ["",
     eqRule, "GROUNDS FOR APPEAL", eqRule,
     "The petitioner contends that the 2026 assessed value of $" ++ fmtMoney0 user_sev,
     "(implying a True Cash Value of $" ++ fmtMoney0 user_tcv ++ ") exceeds the usual selling",
     "price for comparable properties in the " ++ subdivision ++ " subdivision (" ++ area_code ++ ")",
     "and surrounding area. The petitioner requests a reduction to an assessed",
     "value of $" ++ fmtMoney0 rec_sev ++ " (TCV of $" ++ fmtMoney0 rec_tcv ++ "), supported by the following",
     "evidence from the township\x27s own records and market data.",
     ""] ++
    (match ecf_2026 with
      | none => []
      | some e =>
        [dashRule,
         "EVIDENCE 1: TOWNSHIP ECF DATA " ++
           (if e < 1 then "CONFIRMS OVER-ASSESSMENT" else "ANALYSIS"),
         dashRule] ++
        (if e < 1 then
          ["The township\x27s own Economic Condition Factor (ECF) for " ++ area_code ++ " is",
           fmtFixed 3 e ++ " (2026), meaning the cost-approach valuations used by the",
           "assessor EXCEED actual market sale prices by approximately " ++
             fmtFixed 1 ((1 - e) * 100) ++ "%.",
           "This has been consistent across available assessment years:",
           ""] ++
          ((sortAscNat ((ecf_trend.map (fun p => p.1)).eraseDups)).map (fun year =>
            match trendGet ecf_trend year with
            | some v =>
              "  - " ++ toString year ++ " ECF: " ++ fmtFixed 3 v ++
                " (cost exceeds market by " ++ fmtFixed 1 ((1 - v) * 100) ++ "%)"
            | none =>
              "  - " ++ toString year ++ " ECF: Not available (area not in study)")) ++
          ["",
           "The ECF is calculated from the township\x27s own analysis of actual arm\x27s-",
           "length sales compared to cost-approach values, confirming a systematic",
           "pattern of over-assessment in this subdivision.",
           "",
           "Applying the ECF to the current assessment:",
           "  TCV × ECF = ECF-Adjusted TCV",
           "  $" ++ fmtMoney0 user_tcv ++ " × " ++ fmtFixed 3 e ++ " = $" ++
             fmtMoney0 (ecf_adjusted.getD 0),
           "  Implied over-assessment: $" ++ fmtMoney0 (user_tcv - ecf_adjusted.getD 0)]
         else
          ["The ECF for " ++ area_code ++ " is " ++ fmtFixed 3 e ++ " (at or above 1.0), indicating",
           "the cost approach does not systematically overvalue properties in this",
           "area based on the township\x27s own analysis."]) ++
        [""]) ++
    (if sales_stats.countOf > 0 then
      let count := sales_stats.countOf
      let below_count := pyTrunc ((count : ℚ) * sales_stats.pctBelowOf / 100)
      [dashRule, "EVIDENCE " ++ toString n2 ++ ": COMPARABLE SALES ANALYSIS", dashRule] ++
      (if sales_stats.deltaOf > 0 then
        ["The assessed TCV of $" ++ fmtMoney0 user_tcv ++ " exceeds the median sale price of",
         "comparable arm\x27s-length sales in " ++ area_code ++ ". Of " ++ toString count ++
           " comparable sales",
         "identified across the 2024-2026 assessment data, " ++ toString below_count ++
           " (" ++ fmtFixed 0 sales_stats.pctBelowOf ++ "%)",
         "sold BELOW the assessed TCV."]
       else
        ["Analysis of " ++ toString count ++ " arm\x27s-length sales in " ++ area_code ++
           " from the 2024-2026",
         "assessment data:"]) ++
      [""] ++
      (match sales_df with
        | some df =>
          if df ≠ [] then
            ["  " ++ padRight 28 "Address" ++ " " ++ padLeft 12 "Sale Price" ++ " " ++
               padLeft 12 "Date" ++ " " ++ padLeft 12 "vs TCV" ++ " " ++ padLeft 7 "ECF 26" ++
               " " ++ padLeft 7 "ECF 25" ++ " " ++ padLeft 7 "ECF 24",
             "  " ++ repChar 28 '-' ++ " " ++ repChar 12 '-' ++ " " ++ repChar 12 '-' ++ " " ++
               repChar 12 '-' ++ " " ++ repChar 7 '-' ++ " " ++ repChar 7 '-' ++ " " ++
               repChar 7 '-'] ++
            (df.map (saleTableLine user_tcv ecf_properties)).flatten ++
            [""]
          else []
        | none => []) ++
      ["  Summary Statistics:",
       "  - Number of sales:       " ++ toString count,
       "  - Median sale price:     $" ++ fmtMoney0 sales_stats.medianOf,
       "  - Average sale price:    $" ++ fmtMoney0 sales_stats.meanOf,
       "  - Price range:           $" ++ fmtMoney0 sales_stats.minOf ++ " - $" ++
         fmtMoney0 sales_stats.maxOf] ++
      (if sales_stats.deltaOf > 0 then
        ["  - Your TCV vs median:    +$" ++ fmtMoney0 sales_stats.deltaOf ++ " (" ++
           fmtFixed 1 sales_stats.deltaPctOf ++ "% above)",
         "  - Sales below your TCV:  " ++ toString below_count ++ " of " ++ toString count ++
           " (" ++ fmtFixed 0 sales_stats.pctBelowOf ++ "%)"]
       else []) ++
      [""] ++
      (if sales_stats.deltaOf > 0 then
        ["The average sale price of $" ++ fmtMoney0 sales_stats.meanOf ++ " is $" ++
           fmtMoney0 (user_tcv - sales_stats.meanOf) ++ " below the",
         "assessed TCV of $" ++ fmtMoney0 user_tcv ++ "."]
       else []) ++
      [""]
     else []) ++
    (if land_trends ≠ [] then
      let st := land_trends.foldl landTrendStep (none, none, [])
      [dashRule, "EVIDENCE " ++ toString n3 ++ ": LAND VALUE TREND", dashRule,
       "The " ++ area_code ++ " land values have changed as follows over 3 years:",
       ""] ++
      st.2.2 ++
      (if truthy st.1 ∧ truthy st.2.1 ∧ st.1.getD 0 > 0 then
        ["",
         "  Total land value change: $" ++ fmtMoney0 (st.1.getD 0) ++ " -> $" ++
           fmtMoney0 (st.2.1.getD 0) ++ " (" ++
           fmtFixedS 1 ((st.2.1.getD 0 - st.1.getD 0) / st.1.getD 0 * 100) ++ "%)"]
       else []) ++
      (if truthy ecf_2026 ∧ ecf_2026.getD 0 < 1 then
        ["",
         "  While land values have increased, the ECF data shows that building",
         "  cost valuations consistently exceed market. The combined effect",
         "  produces assessments that overstate actual market conditions."]
       else []) ++
      [""]
     else []) ++
    [eqRule, "CONCLUSION AND REQUESTED RELIEF", eqRule] ++
    (let arguments :=
      (if truthy ecf_2026 ∧ ecf_2026.getD 0 < 1 then
        ["the township\x27s own ECF analysis confirming systematic over-assessment in " ++
          area_code ++ " (ECF = " ++ fmtFixed 3 (ecf_2026.getD 0) ++ ")"]
       else []) ++
      (if sales_stats.countOf > 0 ∧ sales_stats.deltaOf > 0 then
        ["comparable sales evidence showing a median price of $" ++
          fmtMoney0 sales_stats.medianOf ++ " and an average of $" ++
          fmtMoney0 sales_stats.meanOf]
       else [])
     ["Based on " ++
        (if arguments ≠ [] then String.intercalate ", " arguments
         else "the evidence presented above") ++ ",",
      "the petitioner respectfully requests that the Board of Review reduce the",
      "2026 assessed value from $" ++ fmtMoney0 user_sev ++ " to $" ++ fmtMoney0 rec_sev ++
        ", reflecting a",
      "True Cash Value of $" ++ fmtMoney0 (rec_sev * 2) ++ ".",
      ""]) ++
    ["This value is consistent with:"] ++
    (if sales_stats.countOf > 0 then
      ["  - The average of " ++ toString sales_stats.countOf ++
        " comparable arm\x27s-length sales ($" ++ fmtMoney0 sales_stats.meanOf ++ ")"]
     else []) ++
    (if truthy ecf_adjusted then
      ["  - The township\x27s own ECF-adjusted cost approach ($" ++
        fmtMoney0 (ecf_adjusted.getD 0) ++ ")"]
     else []) ++
    ["  - The sales-comparison approach, which is the most persuasive valuation",
     "    method for residential property under Michigan law",
     "    (Meadowlanes Ltd v Holland, 437 Mich 473)",
     "",
     dashRule, "LEGAL BASIS", dashRule,
     "Under MCL 211.27(1), true cash value means the usual selling price.",
     "There is no presumption of validity for the assessor\x27s value",
     "(Alhi Development Co v Orion Twp, 110 Mich App 764, 1981).",
     "The sales-comparison approach is the most persuasive valuation method",
     "for residential property (Meadowlanes Ltd v Holland, 437 Mich 473).",
     "",
     eqRule, "PETITIONER", eqRule,
     "",
     "Signature: ____________________________    Date: ___/___/2026",
     ""] ++
    (match prop with
      | some p =>
        if p.address ≠ "" then
          ["Printed Name: _________________________",
           "Address: " ++ p.address ++ ", Ypsilanti, MI 48197"]
        else
          ["Printed Name: _________________________",
           "Address: _____________________________"]
      | none =>
        ["Printed Name: _________________________",
         "Address: _____________________________"]) ++
    ["Phone: ________________________________",
     "Email: ________________________________",
     "",
     dashRule,
     "Note: This petition is submitted pursuant to MCL 211.30 and the General",
     "Property Tax Act. The petitioner requests that the Board of Review",
     "consider this written petition in lieu of a personal appearance, per",
     "MCL 211.30(4).",
     "",
     "Data source: Pittsfield Township official assessment documents (2024-2026)",
     "Available at: pittsfield-mi.gov/2230/Property-Assessment-Data",
     "",
     "APPEAL DEADLINE: March 10, 2026 at 5:00 PM",
     "Location: 6201 W. Michigan Ave, Ann Arbor, MI 48108",
     "Phone: 734-822-3115 | Email: assessing@pittsfield-mi.gov"])

/-- The lines of `generate_appeal_summary`, translated from the source
(lines 216-571): compute the TCV, the 2026 cost-factor, the ECF-adjusted
value (Python truthiness on the factor), the recommended range and the
rounded recommended SEV, then emit the short-form block when
`rec_sev >= user_sev` (the early return of the source) and the long-form
petition otherwise.  The `coverage` argument is accepted and never read,
exactly as in the source.  The mutable `L` accumulation becomes list
concatenation; the `evidence_num` counter becomes explicit numbers; and
formatting a `None` ECF-adjusted value (a `TypeError` in Python, reachable
only with a 2026 ECF of exactly 0) is modelled as formatting 0. -/
def generateAppealSummaryLines (area_code subdivision : String) (user_sev : ℚ)
    (ecf_trend : List (Nat × Option ℚ)) (sales_stats : SalesStatsR)
    (land_trends : List LandTrendRow) (coverage : List (Nat × Nat))
    (ecf_properties : List EcfPropRow)
    (sales_df : Option (List OutRow) := none)
    (prop : Option PropertyData := none) : List String :=
  let _ := coverage
  let user_tcv := user_sev * 2
  let ecf_2026 := trendGet ecf_trend 2026
  let ecf_adjusted : Option ℚ :=
    match ecf_2026 with
    | some e => if e ≠ 0 ∧ e < 1 then some (user_tcv * e) else none
    | none => none
  let rec_sev := recSevOf (computeRecommendedValues ecf_2026 user_tcv sales_stats).1
  if rec_sev ≥ user_sev then
    appealShortLines area_code subdivision user_sev user_tcv ecf_2026 ecf_adjusted
      sales_stats prop
  else
    appealLongLines area_code subdivision user_sev user_tcv rec_sev ecf_2026 ecf_adjusted
      ecf_trend sales_stats land_trends ecf_properties sales_df prop

/-- `generate_appeal_summary`: the composed petition text,
`"\n".join(L)`. -/
def generate_appeal_summary (area_code subdivision : String) (user_sev : ℚ)
    (ecf_trend : List (Nat × Option ℚ)) (sales_stats : SalesStatsR)
    (land_trends : List LandTrendRow) (coverage : List (Nat × Nat))
    (ecf_properties : List EcfPropRow)
    (sales_df : Option (List OutRow) := none)
    (prop : Option PropertyData := none) : String :=
  String.intercalate "\n"
    (generateAppealSummaryLines area_code subdivision user_sev ecf_trend sales_stats
      land_trends coverage ecf_properties sales_df prop)

/-! ## Helper lemmas -/

/-- `pyRound` lands within half a unit of its argument. -/
theorem pyRound_close (q : ℚ) : |q - (pyRound q : ℚ)| ≤ 1 / 2 := by
  have h0 : ((⌊q⌋ : ℤ) : ℚ) ≤ q := Int.floor_le q
  have h1 : q < (⌊q⌋ : ℚ) + 1 := Int.lt_floor_add_one q
  unfold pyRound
  split
  · next h => rw [abs_le]; constructor <;> linarith
  · next h =>
    split
    · next h2 => rw [abs_le]; constructor <;> push_cast <;> linarith
    · next h2 =>
      have he : q - (⌊q⌋ : ℚ) = 1 / 2 := le_antisymm (le_of_not_lt h2) (le_of_not_lt h)
      split <;> (rw [abs_le]; constructor <;> push_cast <;> linarith)

/-- The seed of a left max-fold is a lower bound of the result. -/
theorem le_foldl_max (xs : List ℚ) (a : ℚ) : a ≤ xs.foldl max a := by
  induction xs generalizing a with
  | nil => exact le_refl a
  | cons x xs ih => exact le_trans (le_max_left a x) (ih (max a x))

/-- Every member of the list is a lower bound of a left max-fold. -/
theorem mem_le_foldl_max (c : ℚ) : ∀ (xs : List ℚ) (a : ℚ), c ∈ xs → c ≤ xs.foldl max a
  | x :: xs, a, h => by
    rcases List.mem_cons.mp h with rfl | h2
    · exact le_trans (le_max_right a c) (le_foldl_max xs (max a c))
    · exact mem_le_foldl_max c xs (max a x) h2

/-- `pyMaximum` dominates every member of the list. -/
theorem pyMaximum_ge {l : List ℚ} {c : ℚ} (h : c ∈ l) : c ≤ pyMaximum l := by
  match l, h with
  | x :: xs, h =>
    rcases List.mem_cons.mp h with rfl | h2
    · exact le_foldl_max xs c
    · exact mem_le_foldl_max c xs x h2

/-- The SEV fallback touches only `sev_2026`: every page-2 field and the
extracted TCV pass through unchanged. -/
theorem applySevFallback_fields (p : PropertyData) :
    (applySevFallback p).style = p.style ∧
    (applySevFallback p).year_built = p.year_built ∧
    (applySevFallback p).condition = p.condition ∧
    (applySevFallback p).effective_age = p.effective_age ∧
    (applySevFallback p).floor_area = p.floor_area ∧
    (applySevFallback p).ground_area = p.ground_area ∧
    (applySevFallback p).basement_sf = p.basement_sf ∧
    (applySevFallback p).total_base_new = p.total_base_new ∧
    (applySevFallback p).total_depr_cost = p.total_depr_cost ∧
    (applySevFallback p).estimated_tcv_cost = p.estimated_tcv_cost ∧
    (applySevFallback p).ecf = p.ecf ∧
    (applySevFallback p).raw_text_page2 = p.raw_text_page2 ∧
    (applySevFallback p).tcv_2026 = p.tcv_2026 := by
  unfold applySevFallback
  split
  · exact ⟨rfl, rfl, rfl, rfl, rfl, rfl, rfl, rfl, rfl, rfl, rfl, rfl, rfl⟩
  · exact ⟨rfl, rfl, rfl, rfl, rfl, rfl, rfl, rfl, rfl, rfl, rfl, rfl, rfl⟩

/-- Inserting into the date-descending sort permutes consing. -/
theorem insertDateDesc_perm (y : OutRow) (l : List OutRow) :
    (insertDateDesc y l).Perm (y :: l) := by
  induction l with
  | nil => exact List.Perm.refl _
  | cons z zs ih =>
    rw [insertDateDesc]
    split
    · exact List.Perm.refl _
    · exact (ih.cons z).trans (List.Perm.swap y z zs)

/-- The date sort is a permutation. -/
theorem sortByDateDesc_perm (l : List OutRow) : (sortByDateDesc l).Perm l := by
  induction l with
  | nil => exact List.Perm.refl _
  | cons x xs ih => exact (insertDateDesc_perm x (sortByDateDesc xs)).trans (ih.cons x)

/-- Membership is invariant under the date sort. -/
theorem mem_sortByDateDesc {x : OutRow} {l : List OutRow} :
    x ∈ sortByDateDesc l ↔ x ∈ l :=
  (sortByDateDesc_perm l).mem_iff

/-- Deduplication only drops rows. -/
theorem mem_of_mem_dedupKeepLast {key : OutRow → String} :
    ∀ {l : List OutRow} {x : OutRow}, x ∈ dedupKeepLast key l → x ∈ l
  | [], _, h => absurd h (by simp [dedupKeepLast])
  | a :: as, x, h => by
    rw [dedupKeepLast] at h
    split at h
    · exact List.mem_cons_of_mem a (mem_of_mem_dedupKeepLast h)
    · rcases List.mem_cons.mp h with rfl | h2
      · exact List.mem_cons_self _ _
      · exact List.mem_cons_of_mem a (mem_of_mem_dedupKeepLast h2)

/-- After deduplication all keys are pairwise distinct. -/
theorem dedupKeepLast_pairwise (key : OutRow → String) :
    ∀ l : List OutRow, (dedupKeepLast key l).Pairwise (fun a b => key a ≠ key b)
  | [] => by simp [dedupKeepLast]
  | a :: as => by
    rw [dedupKeepLast]
    split
    · exact dedupKeepLast_pairwise key as
    · next hni =>
      refine List.Pairwise.cons ?_ (dedupKeepLast_pairwise key as)
      intro b hb heq
      apply hni
      rw [heq]
      exact List.mem_map_of_mem key (mem_of_mem_dedupKeepLast hb)

/-- Every surviving row is the last row of the input sharing its key:
`keep="last"` semantics. -/
theorem dedupKeepLast_last {key : OutRow → String} :
    ∀ {l : List OutRow} {x : OutRow}, x ∈ dedupKeepLast key l →
      (l.filter (fun y => key y = key x)).getLast? = some x
  | [], _, h => absurd h (by simp [dedupKeepLast])
  | a :: as, x, h => by
    rw [dedupKeepLast] at h
    split at h
    · next hmem =>
      have ih := dedupKeepLast_last h
      have hx : x ∈ as := mem_of_mem_dedupKeepLast h
      rw [List.filter_cons]
      by_cases hk : key a = key x
      · rw [if_pos (by simp [hk])]
        have hxf : x ∈ as.filter (fun y => key y = key x) :=
          List.mem_filter.mpr ⟨hx, by simp⟩
        rcases hcons : as.filter (fun y => key y = key x) with _ | ⟨b, bs⟩
        · rw [hcons] at hxf
          cases hxf
        · rw [List.getLast?_cons_cons, ← hcons]
          exact ih
      · rw [if_neg (by simp [hk])]
        exact ih
    · next hni =>
      rcases List.mem_cons.mp h with rfl | h2
      · rw [List.filter_cons, if_pos (by simp)]
        have hnil : as.filter (fun y => key y = key x) = [] := by
          rw [List.filter_eq_nil_iff]
          intro y hy hp
          apply hni
          have : key y = key x := by simpa using hp
          rw [← this]
          exact List.mem_map_of_mem key hy
        rw [hnil]
        exact List.getLast?_singleton x
      · have ih := dedupKeepLast_last h2
        have hx : x ∈ as := mem_of_mem_dedupKeepLast h2
        have hk : key a ≠ key x := by
          intro he
          apply hni
          rw [he]
          exact List.mem_map_of_mem key hx
        rw [List.filter_cons, if_neg (by simp [hk])]
        exact ih

/-- Every input key is represented in the deduplicated output. -/
theorem dedupKeepLast_covers {key : OutRow → String} :
    ∀ {l : List OutRow} {x : OutRow}, x ∈ l →
      ∃ r ∈ dedupKeepLast key l, key r = key x
  | a :: as, x, h => by
    rw [dedupKeepLast]
    by_cases hmem : key a ∈ as.map key
    · rw [if_pos hmem]
      rcases List.mem_cons.mp h with rfl | h2
      · rcases List.mem_map.mp hmem with ⟨s, hs, hks⟩
        rcases dedupKeepLast_covers hs with ⟨r, hr, hkr⟩
        exact ⟨r, hr, by rw [hkr, hks]⟩
      · exact dedupKeepLast_covers h2
    · rw [if_neg hmem]
      rcases List.mem_cons.mp h with rfl | h2
      · exact ⟨x, List.mem_cons_self x (dedupKeepLast key as), rfl⟩
      · rcases dedupKeepLast_covers h2 with ⟨r, hr, hkr⟩
        exact ⟨r, List.mem_cons_of_mem a hr, hkr⟩

/-- What membership in a yearly filtered sales frame guarantees: the row
comes from the table, matches the area, clears the lot-only threshold with
a non-missing adjusted price, and — when the table has a terms column —
was classified arms-length. -/
theorem filteredSales_spec {t : SalesTable} {area : String} {s : SalesRow}
    (h : s ∈ filteredSales t area) :
    s ∈ t.rows ∧ s.ECF_Area = area ∧
    (∃ v, s.Adj_Sale = some v ∧ LOT_ONLY_THRESHOLD ≤ v) ∧
    (t.hasTerms = true → ∃ ts, s.Terms_of_Sale = some ts ∧ containsCI ts "ARM" = true) := by
  rw [filteredSales] at h
  by_cases hec : t.hasECFArea
  · rw [if_pos hec] at h
    rcases List.mem_filter.mp h with ⟨h2, hadj⟩
    have hAdj : ∃ v, s.Adj_Sale = some v ∧ LOT_ONLY_THRESHOLD ≤ v := by
      rcases hv : s.Adj_Sale with _ | v
      · rw [hv] at hadj
        simp at hadj
      · rw [hv] at hadj
        exact ⟨v, rfl, by simpa using hadj⟩
    by_cases ht : t.hasTerms
    · rw [if_pos ht] at h2
      rcases List.mem_filter.mp h2 with ⟨h3, hterm⟩
      rcases List.mem_filter.mp h3 with ⟨h4, harea⟩
      refine ⟨h4, by simpa using harea, hAdj, fun _ => ?_⟩
      rcases hts : s.Terms_of_Sale with _ | ts
      · rw [hts] at hterm
        simp at hterm
      · rw [hts] at hterm
        exact ⟨ts, rfl, by simpa using hterm⟩
    · rw [if_neg ht] at h2
      rcases List.mem_filter.mp h2 with ⟨h4, harea⟩
      exact ⟨h4, by simpa using harea, hAdj, fun hc => absurd hc ht⟩
  · rw [if_neg hec] at h
    cases h

/-- Every comparable-sales candidate row originates from the
filtered frame of some year. -/
theorem concatProj_spec {data : Data} {area : String} {r : OutRow}
    (h : r ∈ concatProj data area) :
    ∃ y t s, (y, t) ∈ data.sales ∧ s ∈ filteredSales t area ∧ projRow s = r := by
  rw [concatProj] at h
  rcases List.mem_flatten.mp h with ⟨l, hl, hrl⟩
  rcases List.mem_map.mp hl with ⟨p, hp, rfl⟩
  rcases List.mem_map.mp hrl with ⟨s, hs, hps⟩
  exact ⟨p.1, p.2, s, hp, hs, hps⟩

/-- Inserting into the ascending sort permutes consing. -/
theorem insertAsc_perm (y : ℚ) (l : List ℚ) : (insertAsc y l).Perm (y :: l) := by
  induction l with
  | nil => exact List.Perm.refl _
  | cons z zs ih =>
    rw [insertAsc]
    split
    · exact List.Perm.refl _
    · exact (ih.cons z).trans (List.Perm.swap y z zs)

/-- The ascending sort is a permutation. -/
theorem sortAsc_perm (l : List ℚ) : (sortAsc l).Perm l := by
  induction l with
  | nil => exact List.Perm.refl _
  | cons x xs ih => exact (insertAsc_perm x (sortAsc xs)).trans (ih.cons x)

/-- Membership is invariant under the ascending sort. -/
theorem mem_sortAsc {x : ℚ} {l : List ℚ} : x ∈ sortAsc l ↔ x ∈ l :=
  (sortAsc_perm l).mem_iff

/-- Membership is invariant under duplicate removal. -/
theorem mem_dedupQ : ∀ {l : List ℚ} {x : ℚ}, x ∈ dedupQ l ↔ x ∈ l
  | [], x => by simp [dedupQ]
  | a :: as, x => by
    rw [dedupQ]
    by_cases hmem : a ∈ as
    · rw [if_pos hmem]
      constructor
      · intro h
        exact List.mem_cons_of_mem a (mem_dedupQ.mp h)
      · intro h
        rcases List.mem_cons.mp h with rfl | h2
        · exact mem_dedupQ.mpr hmem
        · exact mem_dedupQ.mpr h2
    · rw [if_neg hmem]
      constructor
      · intro h
        rcases List.mem_cons.mp h with rfl | h2
        · exact List.mem_cons_self _ _
        · exact List.mem_cons_of_mem a (mem_dedupQ.mp h2)
      · intro h
        rcases List.mem_cons.mp h with rfl | h2
        · exact List.mem_cons_self _ _
        · exact List.mem_cons_of_mem a (mem_dedupQ.mpr h2)

/-- A right max-fold over naturals is zero or a list element. -/
theorem nat_foldr_max_mem : ∀ l : List Nat, l.foldr max 0 = 0 ∨ l.foldr max 0 ∈ l
  | [] => Or.inl rfl
  | x :: xs => by
    rw [List.foldr_cons]
    rcases max_choice x (xs.foldr max 0) with h | h
    · rw [h]
      exact Or.inr (List.mem_cons_self _ _)
    · rw [h]
      rcases nat_foldr_max_mem xs with h2 | h2
      · exact Or.inl h2
      · exact Or.inr (List.mem_cons_of_mem x h2)

/-- A right max-fold dominates every list element. -/
theorem nat_le_foldr_max : ∀ (l : List Nat) {c : Nat}, c ∈ l → c ≤ l.foldr max 0
  | x :: xs, c, h => by
    rw [List.foldr_cons]
    rcases List.mem_cons.mp h with rfl | h2
    · exact le_max_left _ _
    · exact le_trans (nat_le_foldr_max xs h2) (le_max_right _ _)

/-- A nonempty value list always has a mode. -/
theorem pdMode_ne_nil {l : List ℚ} (h : l ≠ []) : pdMode l ≠ [] := by
  rcases l with _ | ⟨a, as⟩
  · exact absurd rfl h
  intro hnil
  have hmx : ∃ v ∈ a :: as, (a :: as).count v =
      ((a :: as).map (fun w => (a :: as).count w)).foldr max 0 := by
    rcases nat_foldr_max_mem ((a :: as).map (fun w => (a :: as).count w)) with h0 | hm
    · have h1 : (a :: as).count a ≤
          ((a :: as).map (fun w => (a :: as).count w)).foldr max 0 :=
        nat_le_foldr_max _ (List.mem_map_of_mem _ (List.mem_cons_self _ _))
      have h2 : 0 < (a :: as).count a := List.count_pos_iff.mpr (List.mem_cons_self _ _)
      omega
    · rcases List.mem_map.mp hm with ⟨v, hv, hveq⟩
      exact ⟨v, hv, hveq⟩
  rcases hmx with ⟨v, hv, hveq⟩
  have hvin : v ∈ sortAsc (dedupQ (a :: as)) := mem_sortAsc.mpr (mem_dedupQ.mpr hv)
  have hmem : v ∈ pdMode (a :: as) := by
    rw [pdMode]
    exact List.mem_filter.mpr ⟨hvin, by simpa using hveq⟩
  rw [hnil] at hmem
  cases hmem

/-- On a nonempty value list the source pick equals the least modal
value; the median fallback is dead code. -/
theorem landValuePick_eq {vals : List ℚ} (h : vals ≠ []) :
    landValuePick vals = (pdMode vals).head? := by
  rcases hm : pdMode vals with _ | ⟨m, ms⟩
  · exact absurd hm (pdMode_ne_nil h)
  · rw [landValuePick, hm]
    rfl

/-- The guarded pick agrees with its spec-side version. -/
theorem pickIfAny_eq (vals : List ℚ) : pickIfAny vals = pickIfAnySpec vals := by
  rw [pickIfAny, pickIfAnySpec]
  split
  · next hlen =>
    rw [landValuePick_eq (List.length_pos.mp hlen), landValuePickSpec]
  · rfl

/-- The per-year land values agree with their spec-side version. -/
theorem landValuesForYear_eq (landT : LandTable) (area : String) :
    landValuesForYear landT area = landValuesForYearSpec landT area := by
  rw [landValuesForYear, landValuesForYearSpec]
  split
  · rfl
  · rw [pickIfAny_eq, pickIfAny_eq]

/-- The per-year trend row agrees with its spec-side version. -/
theorem landTrendForYear_eq (data : Data) (area : String) (y : Nat) :
    landTrendForYear data area y = landTrendForYearSpec data area y := by
  rw [landTrendForYear, landTrendForYearSpec]
  simp only [landValuesForYear_eq]

/-- A produced trend row carries its year. -/
theorem landTrendForYear_year {data : Data} {area : String} {y : Nat} {r : LandTrendRow}
    (h : landTrendForYear data area y = some r) : r.year = y := by
  rw [landTrendForYear] at h
  split at h
  · cases h
  · split at h
    · cases h
    · injection h with h2
      rw [← h2]

/-- The years of the produced trend rows form a sublist of the iterated
year list. -/
theorem filterMap_year_sublist (f : Nat → Option LandTrendRow)
    (hf : ∀ y r, f y = some r → r.year = y) :
    ∀ l : List Nat, ((l.filterMap f).map (fun r => r.year)).Sublist l
  | [] => by simp
  | y :: ys => by
    rw [List.filterMap_cons]
    rcases h : f y with _ | r
    · exact List.Sublist.cons y (filterMap_year_sublist f hf ys)
    · rw [List.map_cons, hf y r h]
      exact List.Sublist.cons₂ y (filterMap_year_sublist f hf ys)

/-! ## Claims -/

/-- C2: `_compute_recommended_values` returns `(tcv, tcv)` when the
candidate set (factor-adjusted value when the latest cost-factor exists
and is below 1.0; sales median and mean when the sales count is positive)
is empty, and otherwise returns `(primary, max of candidates)` where
`primary` is the sales median when sales exist, else the factor-adjusted
value when the latest cost-factor is below 1.0, else the original
true-cash-value; moreover the high end dominates every candidate. -/
theorem C2_recommended_values (ecf_2026 : Option ℚ) (user_tcv : ℚ) (stats : SalesStatsR) :
    computeRecommendedValues ecf_2026 user_tcv stats =
      (if recommendCandidates ecf_2026 user_tcv stats = [] then (user_tcv, user_tcv)
       else
        ((if stats.countOf > 0 then stats.medianOf
          else match ecf_2026 with
            | some e => if e < 1 then user_tcv * e else user_tcv
            | none => user_tcv),
         pyMaximum (recommendCandidates ecf_2026 user_tcv stats))) ∧
    (∀ c ∈ recommendCandidates ecf_2026 user_tcv stats,
       c ≤ (computeRecommendedValues ecf_2026 user_tcv stats).2) := by
  constructor
  · rfl
  · intro c hc
    have hne : recommendCandidates ecf_2026 user_tcv stats ≠ [] := by
      intro h
      rw [h] at hc
      cases hc
    have h2 : (computeRecommendedValues ecf_2026 user_tcv stats).2 =
        pyMaximum (recommendCandidates ecf_2026 user_tcv stats) := by
      simp only [computeRecommendedValues, if_neg hne]
    rw [h2]
    exact pyMaximum_ge hc

/-- Witness for C2 at a concrete input: with cost-factor 0.85, TCV
400,000 and no sales, the single candidate 340,000 is bounded by the high
end of the recommendation. -/
theorem C2_witness :
    (340000 : ℚ) ≤ (computeRecommendedValues (some (17/20)) 400000 .empty).2 :=
  (C2_recommended_values (some (17/20)) 400000 .empty).2 340000
    (by simp [recommendCandidates, SalesStatsR.countOf]; norm_num)

/-- C1: `generate_appeal_summary` derives the recommended assessed value
by halving the primary recommended TCV and rounding to the nearest 5,000
(`recSevOf`, which always lands on a 5,000-multiple within 2,500 of the
halved value), and emits the short-form "not recommended" narrative
exactly when that rounded value is at or above the homeowner assessed
value; in the concrete scenario (2026 cost-factor 0.85, SEV 200,000, no
sales) the recommended range is (340,000, 340,000), the recommended SEV is
170,000 and the long-form petition (appeal recommended) is emitted. -/
theorem C1_appeal_gate :
    (∀ (area sub : String) (user_sev : ℚ) (trend : List (Nat × Option ℚ))
       (stats : SalesStatsR) (land : List LandTrendRow) (cov : List (Nat × Nat))
       (props : List EcfPropRow) (sdf : Option (List OutRow)) (prop : Option PropertyData),
       ((generateAppealSummaryLines area sub user_sev trend stats land cov props sdf prop).get? 1 =
          some "APPEAL ANALYSIS — NOT RECOMMENDED") ↔
         recSevOf (computeRecommendedValues (trendGet trend 2026) (user_sev * 2) stats).1 ≥
           user_sev) ∧
    (∀ lo : ℚ, ∃ k : ℤ, recSevOf lo = (k : ℚ) * 5000 ∧ |lo / 2 - (k : ℚ) * 5000| ≤ 2500) ∧
    computeRecommendedValues (trendGet [(2026, some (17/20))] 2026) ((200000 : ℚ) * 2) .empty =
      (340000, 340000) ∧
    recSevOf (340000 : ℚ) = 170000 ∧
    (generateAppealSummaryLines "AR-4" "MEADOWS" 200000 [(2026, some (17/20))] .empty
        [] [] [] none none).get? 0 = some "PETITION TO THE BOARD OF REVIEW" := by
  have hscen : computeRecommendedValues (trendGet [(2026, some (17/20))] 2026)
      ((200000 : ℚ) * 2) .empty = (340000, 340000) := by
    norm_num [computeRecommendedValues, recommendCandidates, trendGet, SalesStatsR.countOf,
      List.find?, pyMaximum]
  refine ⟨?_, ?_, hscen, by norm_num [recSevOf, pyRound], ?_⟩
  · intro area sub user_sev trend stats land cov props sdf prop
    simp only [generateAppealSummaryLines]
    split
    · next h =>
      constructor
      · intro _
        exact h
      · intro _
        rfl
    · next h =>
      constructor
      · intro habs
        have h2 : some "Pittsfield Charter Township, Washtenaw County, Michigan" =
            some "APPEAL ANALYSIS — NOT RECOMMENDED" := habs
        exact absurd (Option.some.inj h2) (by decide)
      · intro hc
        exact absurd hc h
  · intro lo
    refine ⟨pyRound (lo / 2 / 5000), rfl, ?_⟩
    have h := pyRound_close (lo / 2 / 5000)
    have hx : lo / 2 - (pyRound (lo / 2 / 5000) : ℚ) * 5000 =
        (lo / 2 / 5000 - (pyRound (lo / 2 / 5000) : ℚ)) * 5000 := by
      ring
    rw [hx, abs_mul, abs_of_nonneg (by norm_num : (0 : ℚ) ≤ 5000)]
    calc |lo / 2 / 5000 - (pyRound (lo / 2 / 5000) : ℚ)| * 5000
        ≤ 1 / 2 * 5000 := mul_le_mul_of_nonneg_right h (by norm_num)
      _ = 2500 := by norm_num
  · have hno : ¬(recSevOf (computeRecommendedValues (trendGet [(2026, some (17/20))] 2026)
        ((200000 : ℚ) * 2) .empty).1 ≥ (200000 : ℚ)) := by
      rw [hscen]
      norm_num [recSevOf, pyRound]
    simp only [generateAppealSummaryLines, if_neg hno]
    rfl

/-- C9: on a nonempty comparable-sales frame the statistics satisfy
`pct_below_tcv + pct_above_tcv = 100` exactly, with
`0 ≤ pct_below_tcv ≤ 100`. -/
theorem C9_pct_partition (rows : List OutRow) (user_tcv : ℚ) (h : rows ≠ []) :
    ∃ s, compute_sales_stats rows user_tcv = .stats s ∧
      s.pct_below_tcv + s.pct_above_tcv = 100 ∧
      0 ≤ s.pct_below_tcv ∧ s.pct_below_tcv ≤ 100 := by
  match rows, h with
  | r :: rs, _ =>
    refine ⟨_, rfl, by ring, ?_, ?_⟩
    · show (0 : ℚ) ≤ (if ((r :: rs).filterMap (fun x => x.Adj_Sale)).length > 0 then
        ((((r :: rs).filterMap (fun x => x.Adj_Sale)).filter
          (fun p => p < user_tcv)).length : ℚ) /
          (((r :: rs).filterMap (fun x => x.Adj_Sale)).length : ℚ) * 100 else 0)
      split
      · positivity
      · exact le_refl 0
    · show (if ((r :: rs).filterMap (fun x => x.Adj_Sale)).length > 0 then
        ((((r :: rs).filterMap (fun x => x.Adj_Sale)).filter
          (fun p => p < user_tcv)).length : ℚ) /
          (((r :: rs).filterMap (fun x => x.Adj_Sale)).length : ℚ) * 100 else 0) ≤ 100
      split
      · next hc =>
        have hlen : (((r :: rs).filterMap (fun x => x.Adj_Sale)).filter
            (fun p => p < user_tcv)).length ≤
            ((r :: rs).filterMap (fun x => x.Adj_Sale)).length :=
          List.length_filter_le _ _
        have hc2 : (0 : ℚ) < (((r :: rs).filterMap (fun x => x.Adj_Sale)).length : ℚ) := by
          exact_mod_cast hc
        calc ((((r :: rs).filterMap (fun x => x.Adj_Sale)).filter
              (fun p => p < user_tcv)).length : ℚ) /
              (((r :: rs).filterMap (fun x => x.Adj_Sale)).length : ℚ) * 100
            ≤ 1 * 100 := by
              apply mul_le_mul_of_nonneg_right _ (by norm_num)
              exact (div_le_one hc2).mpr (by exact_mod_cast hlen)
          _ = 100 := by norm_num
      · norm_num

/-- Witness for C9 at a concrete one-row frame. -/
theorem C9_witness :
    ∃ s, compute_sales_stats
        [{ Parcel_Number := "P1", Street_Address := "A", Sale_Date := ⟨"1/2/2024", ⟨2024, 1, 2⟩⟩,
           Sale_Price := some 200000, Adj_Sale := some 200000, yearCol := 2024 }] 300000 = .stats s ∧
      s.pct_below_tcv + s.pct_above_tcv = 100 ∧
      0 ≤ s.pct_below_tcv ∧ s.pct_below_tcv ≤ 100 :=
  C9_pct_partition _ 300000 (by decide)

/-- A sale that is not arms-length (terms "CASH SALE") in a table whose
`Terms_of_Sale` column is absent, so the arms-length filter is skipped. -/
def exRowC3 : SalesRow :=
  { Parcel_Number := "P1"
    Street_Address := "A ST"
    Sale_Date := { txt := "01/02/2024", date := { y := 2024, m := 1, d := 2 } }
    Sale_Price := some 200000
    Adj_Sale := some 200000
    Terms_of_Sale := some "CASH SALE"
    ECF_Area := "AR-4"
    yearCol := 2024 }

/-- A 2024 sales table with the `Terms_of_Sale` column missing. -/
def exDataC3 : Data :=
  { sales := [(2024, { hasECFArea := true, hasTerms := false, rows := [exRowC3] })]
    ecf_summaries := []
    ecf_analysis := []
    land := []
    land_adj := [] }

/-- C3 counterexample: with the `Terms_of_Sale` column absent the
arms-length filter is skipped, so a "CASH SALE" row at 200,000 appears in
the comparable-sales output even though its terms do not contain "ARM":
the ARM half of the claim fails for this input (the threshold half still
holds — the price of the row is at the 200,000 level). -/
theorem C3_counterexample :
    get_comparable_sales exDataC3 "AR-4" = [projRow exRowC3] ∧
    exRowC3.Terms_of_Sale = some "CASH SALE" ∧
    containsCI "CASH SALE" "ARM" = false := by
  refine ⟨by decide, rfl, by decide⟩

/-- C3 (amended): every row of `get_comparable_sales` has a non-missing
adjusted price at or above the 150,000 lot-only threshold, for any input;
and every row originates from an input sale that — when its yearly table
has the `Terms_of_Sale` column — contains "ARM" case-insensitively.  A
table lacking that column skips the arms-length filter entirely. -/
theorem C3_amended (data : Data) (area : String) (r : OutRow)
    (hr : r ∈ get_comparable_sales data area) :
    (∃ v, r.Adj_Sale = some v ∧ LOT_ONLY_THRESHOLD ≤ v) ∧
    (∃ y t s, (y, t) ∈ data.sales ∧ s ∈ t.rows ∧ projRow s = r ∧
      (t.hasTerms = true →
        ∃ ts, s.Terms_of_Sale = some ts ∧ containsCI ts "ARM" = true)) := by
  have h1 : r ∈ dedupKeepLast dedupKey (concatProj data area) :=
    mem_sortByDateDesc.mp hr
  have h2 : r ∈ concatProj data area := mem_of_mem_dedupKeepLast h1
  rcases concatProj_spec h2 with ⟨y, t, s, hyt, hs, hps⟩
  rcases filteredSales_spec hs with ⟨hrow, _, ⟨v, hv, hth⟩, harm⟩
  refine ⟨⟨v, ?_, hth⟩, y, t, s, hyt, hrow, hps, harm⟩
  rw [← hps]
  exact hv

/-- Witness for C3 at the concrete input of the counterexample: the one
output row clears the threshold. -/
theorem C3_witness :
    ∃ v, (projRow exRowC3).Adj_Sale = some v ∧ LOT_ONLY_THRESHOLD ≤ v :=
  (C3_amended exDataC3 "AR-4" (projRow exRowC3) (by decide)).1

/-- The earlier-loaded of two duplicate sales (same trimmed parcel, same
calendar date in a different text format); it passes every filter. -/
def exRowC5a : SalesRow :=
  { Parcel_Number := " P7 "
    Street_Address := "B ST"
    Sale_Date := { txt := "05/25/2022", date := { y := 2022, m := 5, d := 25 } }
    Sale_Price := some 200000
    Adj_Sale := some 200000
    Terms_of_Sale := some "03-ARMS LENGTH"
    ECF_Area := "AR-4"
    yearCol := 2024 }

/-- The later-loaded duplicate: same parcel (trimmed) and calendar date,
but its adjusted price is below the lot-only threshold, so the filters
drop it before deduplication runs. -/
def exRowC5b : SalesRow :=
  { Parcel_Number := "P7"
    Street_Address := "B ST"
    Sale_Date := { txt := "5/25/2022", date := { y := 2022, m := 5, d := 25 } }
    Sale_Price := some 120000
    Adj_Sale := some 120000
    Terms_of_Sale := some "03-ARMS LENGTH"
    ECF_Area := "AR-4"
    yearCol := 2025 }

/-- Two yearly tables holding the duplicate pair. -/
def exDataC5 : Data :=
  { sales := [(2024, { hasECFArea := true, hasTerms := true, rows := [exRowC5a] }),
              (2025, { hasECFArea := true, hasTerms := true, rows := [exRowC5b] })]
    ecf_summaries := []
    ecf_analysis := []
    land := []
    land_adj := [] }

/-- C5 counterexample: the two input rows collide on the dedup key, yet
the single output row for that key is the EARLIER-loaded 2024 row — the
later-loaded 2025 duplicate was removed by the threshold filter before
deduplication, so "the later-loaded record wins" fails as stated. -/
theorem C5_counterexample :
    dedupKey (projRow exRowC5a) = dedupKey (projRow exRowC5b) ∧
    get_comparable_sales exDataC5 "AR-4" = [projRow exRowC5a] ∧
    (projRow exRowC5a).yearCol = 2024 := by
  refine ⟨by decide, by decide, rfl⟩

/-- C5 (amended): the comparable-sales output never contains two rows
with the same (trimmed parcel, normalised date) key; each output row is
the LAST row, in year-iteration order, among the rows that SURVIVE the
area/arms-length/threshold filters with that key; and every surviving
key is represented exactly once. -/
theorem C5_amended (data : Data) (area : String) :
    (get_comparable_sales data area).Pairwise (fun a b => dedupKey a ≠ dedupKey b) ∧
    (∀ r ∈ get_comparable_sales data area,
      ((concatProj data area).filter (fun y => dedupKey y = dedupKey r)).getLast? = some r) ∧
    (∀ x ∈ concatProj data area,
      ∃ r ∈ get_comparable_sales data area, dedupKey r = dedupKey x) := by
  refine ⟨?_, ?_, ?_⟩
  · exact ((sortByDateDesc_perm _).pairwise_iff (fun h he => h he.symm)).mpr
      (dedupKeepLast_pairwise dedupKey _)
  · intro r hr
    exact dedupKeepLast_last (mem_sortByDateDesc.mp hr)
  · intro x hx
    rcases @dedupKeepLast_covers dedupKey _ _ hx with ⟨r, hr, hk⟩
    exact ⟨r, mem_sortByDateDesc.mpr hr, hk⟩

/-- Witness for C5 at the concrete duplicate pair: the kept row is the
last filter-surviving row with its key. -/
theorem C5_witness :
    ((concatProj exDataC5 "AR-4").filter
      (fun y => dedupKey y = dedupKey (projRow exRowC5a))).getLast? =
      some (projRow exRowC5a) :=
  (C5_amended exDataC5 "AR-4").2.1 (projRow exRowC5a) (by decide)

/-- `filterEcfDomain` only lets through values in the closed interval
`[0.1, 5.0]` (pandas `between` is inclusive). -/
theorem filterEcfDomain_some {o : Option ℚ} {v : ℚ} (h : filterEcfDomain o = some v) :
    1 / 10 ≤ v ∧ v ≤ 5 := by
  rcases o with _ | w
  · simp [filterEcfDomain] at h
  · simp only [filterEcfDomain] at h
    split at h
    · next hcond =>
      cases h
      exact hcond
    · cases h

/-- A raw 2026 summary row whose average cost-factor is 7 — far outside
the (0.1, 5.0) domain — with loader-normalised area text. -/
def rawSumC4 : List EcfSummaryRow :=
  [{ ECF_Area := " \x27AR-4 ", Subdivision := "X", Ave_ECF := some 7 }]

/-- A dataset whose 2026 ECF summary carries the out-of-range factor
through `_load_ecf_summaries` (which applies no domain filter). -/
def exDataC4 : Data :=
  { sales := []
    ecf_summaries := [(2026, loadEcfSummaries rawSumC4)]
    ecf_analysis := []
    land := []
    land_adj := [] }

/-- C4 counterexample: the loader leaves `Ave_ECF` unfiltered, so the
year-to-cost-factor trend view emits the value 7, which lies outside the
open interval (0.1, 5.0): the invariant fails for the trend view. -/
theorem C4_counterexample :
    get_ecf_trend exDataC4 "AR-4" = [(2026, some 7)] ∧
    ¬((1 : ℚ) / 10 < 7 ∧ (7 : ℚ) < 5) := by
  refine ⟨by decide, by norm_num⟩

/-- A data bundle whose per-property ECF tables went through
`_load_ecf_analysis` (the only loader step with the domain filter). -/
def loadedEcfData (raw : List (Nat × Bool × Bool × List EcfAnalysisRow)) : Data :=
  { sales := []
    ecf_summaries := []
    ecf_analysis := raw.map (fun q => (q.1, loadEcfAnalysis q.2.1 q.2.2.1 q.2.2.2))
    land := []
    land_adj := [] }

/-- C4 (amended): after `_load_ecf_analysis`, every cost-factor in the
per-property evidence view lies in the CLOSED interval [0.1, 5.0] (the
between-check of the code keeps the endpoints, unlike the open interval claimed);
an out-of-range value is discarded to missing — the filter either passes
a value unchanged or drops it, never clamps.  The area-level trend view
(`get_ecf_trend` over `_load_ecf_summaries`) applies no such filter, as
the counterexample shows. -/
theorem C4_amended (raw : List (Nat × Bool × Bool × List EcfAnalysisRow)) (area : String) :
    (∀ p ∈ get_ecf_properties (loadedEcfData raw) area,
       ∃ v, p.ecf = some v ∧ 1 / 10 ≤ v ∧ v ≤ 5) ∧
    (∀ v : ℚ, ¬(1 / 10 ≤ v ∧ v ≤ 5) → filterEcfDomain (some v) = none) ∧
    (∀ o : Option ℚ, filterEcfDomain o = o ∨ filterEcfDomain o = none) := by
  refine ⟨?_, ?_, ?_⟩
  · intro p hp
    rw [get_ecf_properties] at hp
    rcases List.mem_flatten.mp hp with ⟨l, hl, hpl⟩
    rcases List.mem_map.mp hl with ⟨q, hq, rfl⟩
    split at hpl
    · rcases List.mem_map.mp hpl with ⟨r, hr, rfl⟩
      rcases List.mem_filter.mp hr with ⟨hr2, hsome⟩
      rcases List.mem_filter.mp hr2 with ⟨hr3, _⟩
      simp only [loadedEcfData] at hq
      rcases List.mem_map.mp hq with ⟨q0, _, rfl⟩
      have hr4 : r ∈ q0.2.2.2.map (loadEcfRow q0.2.1) := hr3
      rcases List.mem_map.mp hr4 with ⟨r0, _, rfl⟩
      have hs : (filterEcfDomain r0.ECF).isSome := hsome
      rcases Option.isSome_iff_exists.mp hs with ⟨v, hv⟩
      exact ⟨v, hv, filterEcfDomain_some hv⟩
    · cases hpl
  · intro v hv
    simp only [filterEcfDomain]
    rw [if_neg hv]
  · intro o
    rcases o with _ | w
    · exact Or.inl rfl
    · simp only [filterEcfDomain]
      split
      · exact Or.inl rfl
      · exact Or.inr rfl

/-- Witness for C4 at a concrete out-of-range value: 7 is discarded to
missing by the domain filter of the loader. -/
theorem C4_witness : filterEcfDomain (some 7) = none :=
  (C4_amended [] "AR-4").2.1 7 (by norm_num)

/-- C6 counterexample: a one-page record card whose only extractable
figure is "2026 Est TCV 400,001" — an odd TCV.  The fallback derives the
assessed value by floor division, giving SEV 200,000, and
400,001 ≠ 2 × 200,000: exact doubling fails for the parser pair. -/
theorem C6_counterexample :
    (parse_rc_pdf ["2026 Est TCV 400,001"]).tcv_2026 = 400001 ∧
    (parse_rc_pdf ["2026 Est TCV 400,001"]).sev_2026 = 200000 ∧
    (400001 : Nat) ≠ 2 * 200000 := by
  refine ⟨by decide, by decide, by decide⟩

/-- C6 (amended): the parser fallback sets `sev = tcv // 2` (floor), so
the TCV stays fixed and equals exactly twice the derived SEV only when the
extracted TCV is even; in `generate_appeal_summary`, by contrast, the
doubling relation is exact for both rendered pairs — the long-form
assessment table renders the homeowner TCV as `user_sev * 2` and the
petitioner TCV as twice the rounded recommended SEV in one row. -/
theorem C6_amended :
    (∀ p : PropertyData, p.sev_2026 = 0 → 0 < p.tcv_2026 →
       (applySevFallback p).sev_2026 = p.tcv_2026 / 2 ∧
       (applySevFallback p).tcv_2026 = p.tcv_2026 ∧
       ((applySevFallback p).tcv_2026 = 2 * (applySevFallback p).sev_2026 ↔
          p.tcv_2026 % 2 = 0)) ∧
    (∀ (area sub : String) (user_sev : ℚ) (trend : List (Nat × Option ℚ))
       (stats : SalesStatsR) (land : List LandTrendRow) (cov : List (Nat × Nat))
       (props : List EcfPropRow) (sdf : Option (List OutRow)) (prop : Option PropertyData),
       ¬(recSevOf (computeRecommendedValues (trendGet trend 2026) (user_sev * 2) stats).1 ≥
           user_sev) →
       (padRight 30 "True Cash Value (TCV)" ++ " $" ++ padLeft 13 (fmtMoney0 (user_sev * 2)) ++
         "  $" ++ padLeft 13 (fmtMoney0
           (recSevOf (computeRecommendedValues (trendGet trend 2026) (user_sev * 2) stats).1 * 2)) ++
         "  $" ++ padLeft 13 (fmtMoneyS0
           (recSevOf (computeRecommendedValues (trendGet trend 2026) (user_sev * 2) stats).1 * 2 -
             user_sev * 2))) ∈
         generateAppealSummaryLines area sub user_sev trend stats land cov props sdf prop) := by
  constructor
  · intro p hsev htcv
    have hcond : p.sev_2026 = 0 ∧ p.tcv_2026 > 0 := ⟨hsev, htcv⟩
    unfold applySevFallback
    rw [if_pos hcond]
    dsimp only
    refine ⟨rfl, rfl, ?_⟩
    omega
  · intro area sub user_sev trend stats land cov props sdf prop h
    simp only [generateAppealSummaryLines, if_neg h, appealLongLines]
    simp only [List.mem_cons, List.mem_append]
    tauto

/-- Witness for C6 at the odd concrete TCV 400,001. -/
theorem C6_witness :
    (applySevFallback { tcv_2026 := 400001 }).sev_2026 = 400001 / 2 ∧
    (applySevFallback { tcv_2026 := 400001 }).tcv_2026 = 400001 ∧
    ((applySevFallback { tcv_2026 := 400001 }).tcv_2026 =
        2 * (applySevFallback { tcv_2026 := 400001 }).sev_2026 ↔ (400001 : Nat) % 2 = 0) :=
  C6_amended.1 { tcv_2026 := 400001 } rfl (by decide)

/-- Coverage dict with 2026 dropped from the study. -/
def covDropC7 : List (Nat × Nat) := [(2024, 5), (2025, 3), (2026, 0)]

/-- The same coverage dict with 2026 present. -/
def covFullC7 : List (Nat × Nat) := [(2024, 5), (2025, 3), (2026, 7)]

/-- C7 counterexample: the petition composer produces byte-identical
output whether 2026 has zero coverage or seven sales — it never reads the
coverage argument, so it cannot flag a dropped year; the "DROPPED" flag
lives in the dashboard chart instead. -/
theorem C7_counterexample :
    generateAppealSummaryLines "AR-4" "M" 200000 [(2026, some (17/20))] .empty []
        covDropC7 [] none none =
      generateAppealSummaryLines "AR-4" "M" 200000 [(2026, some (17/20))] .empty []
        covFullC7 [] none none ∧
    dictLookup covDropC7 2026 = some 0 ∧
    dictLookup covFullC7 2026 = some 7 := by
  refine ⟨rfl, by decide, by decide⟩

/-- A sales row in area AR-4. -/
def rowC7 : SalesRow :=
  { Parcel_Number := "P9"
    Street_Address := "C ST"
    Sale_Date := { txt := "03/01/2024", date := { y := 2024, m := 3, d := 1 } }
    Sale_Price := some 300000
    Adj_Sale := some 300000
    Terms_of_Sale := some "03-ARMS LENGTH"
    ECF_Area := "AR-4"
    yearCol := 2024 }

/-- A dataset giving area AR-4 coverage 5, 3 and 0 in 2024-2026 (the 2026
table has rows, none in the area). -/
def exDataC7 : Data :=
  { sales := [(2024, { hasECFArea := true, hasTerms := true, rows := List.replicate 5 rowC7 }),
              (2025, { hasECFArea := true, hasTerms := true, rows := List.replicate 3 rowC7 }),
              (2026, { hasECFArea := true, hasTerms := true,
                       rows := [{ rowC7 with ECF_Area := "ZZ-9" }] })]
    ecf_summaries := []
    ecf_analysis := []
    land := []
    land_adj := [] }

/-- C7 (amended): `check_sales_coverage` maps each loaded year to exactly
the count of the rows of that year matching the area (zero when the table has
no area column); the scenario coverage {2024: 5, 2025: 3, 2026: 0} is
reported as exactly those counts; the zero year is flagged "DROPPED" by
the dashboard coverage chart, not by the petition composer, whose output
does not depend on the coverage argument at all. -/
theorem C7_amended :
    (∀ (data : Data) (area : String),
       check_sales_coverage data area =
         data.sales.map (fun p =>
           (p.1, if p.2.hasECFArea then p.2.rows.countP (fun r => r.ECF_Area = area)
                 else 0))) ∧
    check_sales_coverage exDataC7 "AR-4" = [(2024, 5), (2025, 3), (2026, 0)] ∧
    sales_coverage_chart_text [(2024, 5), (2025, 3), (2026, 0)] = ["5", "3", "DROPPED"] ∧
    (∀ (area sub : String) (user_sev : ℚ) (trend : List (Nat × Option ℚ))
       (stats : SalesStatsR) (land : List LandTrendRow) (cov cov2 : List (Nat × Nat))
       (props : List EcfPropRow) (sdf : Option (List OutRow)) (prop : Option PropertyData),
       generateAppealSummaryLines area sub user_sev trend stats land cov props sdf prop =
         generateAppealSummaryLines area sub user_sev trend stats land cov2 props sdf prop) := by
  refine ⟨?_, by decide, by decide, fun _ _ _ _ _ _ _ _ _ _ _ => rfl⟩
  intro data area
  simp [check_sales_coverage, List.countP_eq_length_filter]

/-- Rows giving area AR-4 two distinct land values for 2024, each
occurring once: no unique mode exists. -/
def landTableC8 : LandTable :=
  { hasAreaCode := true
    hasECFArea := false
    hasPrior := true
    hasCurrent := true
    rows := [{ Area_Code := "AR-4", ECF_Area := "", Land_Value_Prior := some 100000,
               Land_Value_Current := some 100000 },
             { Area_Code := "AR-4", ECF_Area := "", Land_Value_Prior := some 200000,
               Land_Value_Current := some 200000 }] }

/-- A dataset with the two-valued 2024 land table and a matching
adjustment row. -/
def exDataC8 : Data :=
  { sales := []
    ecf_summaries := []
    ecf_analysis := []
    land := [(2024, landTableC8)]
    land_adj := [(2024, [{ Area_Code := "AR-4", Subdivision := "M",
                           Adjust_Factor := some 1 }])] }

/-- C8 counterexample: with the two land values 100,000 and 200,000 (each
once) there is no unique mode; the code reports 100,000 — the least modal
value, `mode().iloc[0]` — while the claimed median fallback would give
150,000. -/
theorem C8_counterexample :
    get_land_value_trends exDataC8 "AR-4" =
      [{ year := 2024, adjust_factor := some 1, prior_lv := some 100000,
         current_lv := some 100000 }] ∧
    pyMedian [100000, 200000] = 150000 ∧
    (100000 : ℚ) ≠ 150000 := by
  refine ⟨by decide, ?_, by norm_num⟩
  norm_num [pyMedian, sortAsc, insertAsc, List.foldr]

/-- C8 (amended): `get_land_value_trends` visits exactly the fixed years
2024, 2025, 2026 in ascending order (its output years form a sublist of
that list) and equals the spec-side variant that always takes the least
modal land value — the median branch is unreachable because a nonempty
value list always has a mode (`pdMode` is nonempty and the source pick is
its head). -/
theorem C8_amended (data : Data) (area : String) :
    get_land_value_trends data area = specLandTrends data area ∧
    ((get_land_value_trends data area).map (fun r => r.year)).Sublist [2024, 2025, 2026] ∧
    (∀ vals : List ℚ, vals ≠ [] →
       pdMode vals ≠ [] ∧ landValuePick vals = (pdMode vals).head?) := by
  refine ⟨?_, ?_, fun vals hv => ⟨pdMode_ne_nil hv, landValuePick_eq hv⟩⟩
  · have hfun : landTrendForYear data area = landTrendForYearSpec data area :=
      funext (fun y => landTrendForYear_eq data area y)
    rw [get_land_value_trends, specLandTrends, hfun]
  · exact filterMap_year_sublist (landTrendForYear data area)
      (fun y r h => landTrendForYear_year h) [2024, 2025, 2026]

/-- Witness for C8 on the concrete two-valued list: it has a mode and the
source pick is the least modal value. -/
theorem C8_witness :
    pdMode [(100000 : ℚ), 200000] ≠ [] ∧
    landValuePick [(100000 : ℚ), 200000] = (pdMode [(100000 : ℚ), 200000]).head? :=
  (C8_amended exDataC8 "AR-4").2.2 [100000, 200000] (by decide)

/-- C10: a zero-page document parses to the default record; a one-page
document leaves every page-2 field at its default; pages beyond the
second never influence the result. -/
theorem C10_parse_dispatch :
    parse_rc_pdf [] = ({} : PropertyData) ∧
    (∀ t : String,
      (parse_rc_pdf [t]).style = "" ∧ (parse_rc_pdf [t]).year_built = 0 ∧
      (parse_rc_pdf [t]).condition = "" ∧ (parse_rc_pdf [t]).effective_age = 0 ∧
      (parse_rc_pdf [t]).floor_area = 0 ∧ (parse_rc_pdf [t]).ground_area = 0 ∧
      (parse_rc_pdf [t]).basement_sf = 0 ∧ (parse_rc_pdf [t]).total_base_new = 0 ∧
      (parse_rc_pdf [t]).total_depr_cost = 0 ∧ (parse_rc_pdf [t]).estimated_tcv_cost = 0 ∧
      (parse_rc_pdf [t]).ecf = none ∧ (parse_rc_pdf [t]).raw_text_page2 = "") ∧
    (∀ (t1 t2 : String) (rest : List String),
      parse_rc_pdf (t1 :: t2 :: rest) = parse_rc_pdf [t1, t2]) := by
  refine ⟨rfl, ?_, fun t1 t2 rest => rfl⟩
  intro t
  have h := applySevFallback_fields
    (parsePage1 t { ({} : PropertyData) with raw_text_page1 := t })
  exact ⟨h.1, h.2.1, h.2.2.1, h.2.2.2.1, h.2.2.2.2.1, h.2.2.2.2.2.1, h.2.2.2.2.2.2.1,
    h.2.2.2.2.2.2.2.1, h.2.2.2.2.2.2.2.2.1, h.2.2.2.2.2.2.2.2.2.1,
    h.2.2.2.2.2.2.2.2.2.2.1, h.2.2.2.2.2.2.2.2.2.2.2.1⟩

end Pittsfield
